import Mathlib

/-!
Verification development for the crop-selection engine of videooo-cut
(src/main.py, class VideoPreviewWidget and the crop-related handlers of
MainWindow).

Modelling conventions:
* Qt integer coordinates (QPoint, QRect) are modelled by Int.  A QRect is
  stored, as in Qt, by its four edges x1, y1, x2, y2 where x2 denotes the
  column of right() = x + width - 1 and y2 denotes bottom() = y + height - 1.
  A content-space crop rectangle (always built as QRect(x, y, w, h)) is
  stored as x, y, w, h.
* Python float values (the cached scale and offset of the coordinate
  transform, and the intermediate ratio arithmetic) are modelled as exact
  rational numbers.  So that every state computation can be evaluated by
  the kernel, rationals are carried as an unreduced numerator/denominator
  pair of integers (structure Frac); every operation keeps the denominator
  positive, and Frac.toRat is the bridge to the mathematical rationals used
  in the analytic theorems.
* Python int(x) truncates toward zero; this is Frac.toInt (Int.tdiv of the
  pair).  C++ (Qt) integer division also truncates toward zero (Int.tdiv).
* PyQt objects without a Python bool conversion (QPoint, QRect) are truthy
  exactly when they are not None, so an "if self.crop_rect:" test is
  modelled as Option.isSome.
-/

namespace VideoooCut

/-- Exact rational arithmetic on an (unreduced) numerator/denominator pair.
Models the Python float values of the widget code. -/
structure Frac where
  n : Int
  d : Int
deriving DecidableEq, Repr

def Frac.ofInt (a : Int) : Frac := ⟨a, 1⟩

def Frac.add (a b : Frac) : Frac := ⟨a.n * b.d + b.n * a.d, a.d * b.d⟩

def Frac.sub (a b : Frac) : Frac := ⟨a.n * b.d - b.n * a.d, a.d * b.d⟩

def Frac.mul (a b : Frac) : Frac := ⟨a.n * b.n, a.d * b.d⟩

/-- Division; the sign of the divisor's numerator is moved into the result's
numerator so a positive denominator stays positive. -/
def Frac.div (a b : Frac) : Frac :=
  if 0 ≤ b.n then ⟨a.n * b.d, a.d * b.n⟩ else ⟨-(a.n * b.d), a.d * (-b.n)⟩

/-- Strict comparison by cross multiplication (valid for positive
denominators, which all operations maintain). -/
def Frac.blt (a b : Frac) : Bool := a.n * b.d < b.n * a.d

/-- Python int() applied to the value: truncation toward zero. -/
def Frac.toInt (a : Frac) : Int := a.n.tdiv a.d

def Frac.toRat (a : Frac) : ℚ := (a.n : ℚ) / (a.d : ℚ)

/-- Truncation toward zero on the mathematical rationals (Python int()). -/
def ratTrunc (q : ℚ) : Int := if 0 ≤ q then ⌊q⌋ else ⌈q⌉

/-- A point (QPoint). -/
structure Pt where
  x : Int
  y : Int
deriving DecidableEq, Repr

/-- A display-space rectangle, stored as Qt stores a QRect: left, top,
right = x + width - 1, bottom = y + height - 1. -/
structure WRect where
  x1 : Int
  y1 : Int
  x2 : Int
  y2 : Int
deriving DecidableEq, Repr

def WRect.ofXYWH (x y w h : Int) : WRect := ⟨x, y, x + w - 1, y + h - 1⟩

def WRect.left (r : WRect) : Int := r.x1
def WRect.top (r : WRect) : Int := r.y1
def WRect.right (r : WRect) : Int := r.x2
def WRect.bottom (r : WRect) : Int := r.y2
def WRect.width (r : WRect) : Int := r.x2 - r.x1 + 1
def WRect.height (r : WRect) : Int := r.y2 - r.y1 + 1
def WRect.contains (r : WRect) (p : Pt) : Prop :=
  r.x1 ≤ p.x ∧ p.x ≤ r.x2 ∧ r.y1 ≤ p.y ∧ p.y ≤ r.y2

instance (r : WRect) (p : Pt) : Decidable (r.contains p) := by
  unfold WRect.contains; infer_instance

def WRect.setLeft (r : WRect) (v : Int) : WRect := { r with x1 := v }
def WRect.setTop (r : WRect) (v : Int) : WRect := { r with y1 := v }
def WRect.setRight (r : WRect) (v : Int) : WRect := { r with x2 := v }
def WRect.setBottom (r : WRect) (v : Int) : WRect := { r with y2 := v }
def WRect.topLeft (r : WRect) : Pt := ⟨r.x1, r.y1⟩
def WRect.bottomRight (r : WRect) : Pt := ⟨r.x2, r.y2⟩

/-- QRect.moveCenter: translate so that the center becomes c (Qt source:
w = x2 - x1; x1 = c.x - w/2; x2 = x1 + w, with C++ truncating division). -/
def WRect.moveCenter (r : WRect) (c : Pt) : WRect :=
  let w := r.x2 - r.x1
  let h := r.y2 - r.y1
  let nx1 := c.x - w.tdiv 2
  let ny1 := c.y - h.tdiv 2
  ⟨nx1, ny1, nx1 + w, ny1 + h⟩

/-- A content-space rectangle (always constructed as QRect(x, y, w, h)). -/
structure Rect where
  x : Int
  y : Int
  w : Int
  h : Int
deriving DecidableEq, Repr

/-- QRect.topLeft of a rectangle built as QRect(x, y, w, h). -/
def Rect.topLeft (r : Rect) : Pt := ⟨r.x, r.y⟩

/-- QRect.bottomRight of a rectangle built as QRect(x, y, w, h):
the point (x + w - 1, y + h - 1). -/
def Rect.bottomRight (r : Rect) : Pt := ⟨r.x + r.w - 1, r.y + r.h - 1⟩

/-- The pixel dimensions of the current content frame
(current_frame.shape[:2] is (height, width)). -/
structure Frame where
  width : Int
  height : Int
deriving DecidableEq, Repr

/-- The nine adjust modes of the widget. -/
inductive Handle where
  | move | resize_tl | resize_tr | resize_bl | resize_br
  | resize_t | resize_b | resize_l | resize_r
deriving DecidableEq, Repr

/-- The mutable state of VideoPreviewWidget that the crop engine reads and
writes.  widget_width/widget_height are the dimensions of self.rect(), and
base_pixmap holds the pixel dimensions of the cached scaled pixmap. -/
structure Widget where
  current_frame : Option Frame
  crop_rect : Option Rect
  crop_rect_widget : Option WRect
  shadow_crop_rects : List Rect
  shadow_crop_rects_widget : List WRect
  drawing : Bool
  adjusting : Bool
  adjust_mode : Option Handle
  start_point : Option Pt
  end_point : Option Pt
  start_point_widget : Option Pt
  end_point_widget : Option Pt
  original_crop_rect : Option Rect
  original_crop_rect_widget : Option WRect
  frame_to_widget_scale_x : Frac
  frame_to_widget_scale_y : Frac
  widget_offset_x : Frac
  widget_offset_y : Frac
  handle_size : Int
  lock_aspect_ratio : Bool
  aspect_ratio : Option (Int × Int)
  lock_size : Bool
  locked_size : Option (Int × Int)
  shadow_count : Int
  widget_width : Int
  widget_height : Int
  base_pixmap : Option (Int × Int)
deriving DecidableEq, Repr

/-- widget_to_frame_coords (src/main.py lines 109-121): inverse transform,
truncated to int and clamped into [0, frame_width] x [0, frame_height].
Returns None exactly when no frame is loaded. -/
def widget_to_frame_coords (s : Widget) (p : Pt) : Option Pt :=
  match s.current_frame with
  | none => none
  | some f =>
    let x := ((Frac.ofInt p.x).sub s.widget_offset_x).div s.frame_to_widget_scale_x
    let y := ((Frac.ofInt p.y).sub s.widget_offset_y).div s.frame_to_widget_scale_y
    some ⟨max 0 (min x.toInt f.width), max 0 (min y.toInt f.height)⟩

/-- frame_to_widget_coords (lines 123-127): forward transform, truncated to
int, no clamping. -/
def frame_to_widget_coords (s : Widget) (p : Pt) : Pt :=
  ⟨(((Frac.ofInt p.x).mul s.frame_to_widget_scale_x).add s.widget_offset_x).toInt,
   (((Frac.ofInt p.y).mul s.frame_to_widget_scale_y).add s.widget_offset_y).toInt⟩

/-- get_crop_handle_at (lines 129-161): classify a point against the
widget-space crop rectangle; corners first, then edges, then interior. -/
def get_crop_handle_at (s : Widget) (p : Pt) : Option Handle :=
  match s.crop_rect_widget with
  | none => none
  | some rect =>
    let hs := s.handle_size
    if |p.x - rect.left| ≤ hs ∧ |p.y - rect.top| ≤ hs then some .resize_tl
    else if |p.x - rect.right| ≤ hs ∧ |p.y - rect.top| ≤ hs then some .resize_tr
    else if |p.x - rect.left| ≤ hs ∧ |p.y - rect.bottom| ≤ hs then some .resize_bl
    else if |p.x - rect.right| ≤ hs ∧ |p.y - rect.bottom| ≤ hs then some .resize_br
    else if |p.y - rect.top| ≤ hs ∧ rect.left ≤ p.x ∧ p.x ≤ rect.right then some .resize_t
    else if |p.y - rect.bottom| ≤ hs ∧ rect.left ≤ p.x ∧ p.x ≤ rect.right then some .resize_b
    else if |p.x - rect.left| ≤ hs ∧ rect.top ≤ p.y ∧ p.y ≤ rect.bottom then some .resize_l
    else if |p.x - rect.right| ≤ hs ∧ rect.top ≤ p.y ∧ p.y ≤ rect.bottom then some .resize_r
    else if rect.contains p then some .move
    else none

/-- base_pixmap.rect() if base_pixmap else QRect(), then moveCenter to the
center of self.rect() (the recurring pixmap_rect computation of the event
handlers).  QRect() is the null rectangle with x2 = -1, y2 = -1. -/
def moved_pixmap_rect (s : Widget) : WRect :=
  let raw : WRect :=
    match s.base_pixmap with
    | some (pw, ph) => WRect.ofXYWH 0 0 pw ph
    | none => WRect.ofXYWH 0 0 0 0
  raw.moveCenter ⟨(0 + (s.widget_width - 1)).tdiv 2, (0 + (s.widget_height - 1)).tdiv 2⟩

/-- apply_aspect_ratio_constraint (lines 670-689) on the four corner
coordinates x1, y1, x2, y2 of the candidate crop. -/
def apply_aspect_ratio_constraint (x1 y1 x2 y2 : Int) (ar : Option (Int × Int)) :
    Int × Int × Int × Int :=
  match ar with
  | none => (x1, y1, x2, y2)
  | some (rw, rh) =>
    let width := x2 - x1
    let height := y2 - y1
    let target := (Frac.ofInt rw).div (Frac.ofInt rh)
    let current := if 0 < height then (Frac.ofInt width).div (Frac.ofInt height)
                   else Frac.ofInt 0
    if target.blt current then
      let new_height := ((Frac.ofInt width).div target).toInt
      (x1, y1, x2, y1 + new_height)
    else
      let new_width := ((Frac.ofInt height).mul target).toInt
      (x1, y1, x1 + new_width, y2)

/-- apply_size_constraint (lines 691-700). -/
def apply_size_constraint (x1 y1 x2 y2 : Int) (ls : Option (Int × Int)) :
    Int × Int × Int × Int :=
  match ls with
  | none => (x1, y1, x2, y2)
  | some (tw, th) => (x1, y1, x1 + tw, y1 + th)

/-- The shadow (replica) rectangles of update_shadow_crops (lines 779-786):
for i in range(1, num_segments), the primary shifted right by i * width,
kept when its right edge stays within the frame width. -/
def shadow_rects (crop : Rect) (f : Frame) (num_segments : Int) : List Rect :=
  (List.range' 1 (num_segments - 1).toNat).filterMap fun (i : ℕ) =>
    let shadow_x := crop.x + crop.w * (i : Int)
    if shadow_x + crop.w ≤ f.width then
      some ⟨shadow_x, crop.y, crop.w, crop.h⟩
    else
      none

/-- update_shadow_crops (lines 762-793).  The widget-space list converts each
kept shadow rectangle through frame_to_widget_coords. -/
def update_shadow_crops (s : Widget) (num_segments : Int) : Widget :=
  match s.crop_rect, s.current_frame with
  | some crop, some f =>
    if num_segments ≤ 1 then
      { s with shadow_crop_rects := [], shadow_crop_rects_widget := [] }
    else
      let rects := shadow_rects crop f num_segments
      { s with
        shadow_crop_rects := rects,
        shadow_crop_rects_widget := rects.map fun r =>
          let tl := frame_to_widget_coords s r.topLeft
          let br := frame_to_widget_coords s r.bottomRight
          ⟨tl.x, tl.y, br.x, br.y⟩ }
  | _, _ =>
    -- crop_rect is None (the num_segments guard also clears), or no frame
    -- is loaded (the Python code would fail reading current_frame.shape;
    -- never reached through the event handlers, which all guard on a frame)
    if s.crop_rect.isNone ∨ num_segments ≤ 1 then
      { s with shadow_crop_rects := [], shadow_crop_rects_widget := [] }
    else s

/-- The frame-space computation of update_crop_rect (lines 707-732): corner
normalization, optional constraint, clamping to the frame, minimum size. -/
def update_frame_rect (sp ep : Pt) (lockS : Bool) (lockedS : Option (Int × Int))
    (lockA : Bool) (ar : Option (Int × Int)) (f : Frame) : Rect :=
  let x1 := min sp.x ep.x
  let y1 := min sp.y ep.y
  let x2 := max sp.x ep.x
  let y2 := max sp.y ep.y
  let c :=
    if lockS ∧ lockedS.isSome then apply_size_constraint x1 y1 x2 y2 lockedS
    else if lockA ∧ ar.isSome then apply_aspect_ratio_constraint x1 y1 x2 y2 ar
    else (x1, y1, x2, y2)
  let x1 := max 0 (min c.1 (f.width - 1))
  let y1 := max 0 (min c.2.1 (f.height - 1))
  let x2 := max 0 (min c.2.2.1 f.width)
  let y2 := max 0 (min c.2.2.2 f.height)
  let x2 := if x2 ≤ x1 then min (x1 + 1) f.width else x2
  let y2 := if y2 ≤ y1 then min (y1 + 1) f.height else y2
  ⟨x1, y1, x2 - x1, y2 - y1⟩

/-- The widget-space rectangle of update_crop_rect (lines 735-756): corner
normalization of the recorded widget points, clamping to the pixmap area,
minimum size. -/
def update_widget_rect (spw epw : Pt) (pr : WRect) : WRect :=
  let x1 := min spw.x epw.x
  let y1 := min spw.y epw.y
  let x2 := max spw.x epw.x
  let y2 := max spw.y epw.y
  let x1 := max pr.left (min x1 pr.right)
  let y1 := max pr.top (min y1 pr.bottom)
  let x2 := max pr.left (min x2 pr.right)
  let y2 := max pr.top (min y2 pr.bottom)
  let x2 := if x2 ≤ x1 then min (x1 + 1) pr.right else x2
  let y2 := if y2 ≤ y1 then min (y1 + 1) pr.bottom else y2
  WRect.ofXYWH x1 y1 (x2 - x1) (y2 - y1)

/-- update_crop_rect (lines 702-760).  The crop_changed signal it emits is
handled by MainWindow.on_crop_changed, which mirrors the rectangle and calls
update_shadow_crops with the window's segment count; the window keeps that
count synchronized with the widget's shadow_count, so the emission is folded
into the direct update_shadow_crops call the function already makes. -/
def update_crop_rect (s : Widget) : Widget :=
  match s.start_point, s.end_point, s.current_frame with
  | some sp, some ep, some f =>
    let crop := update_frame_rect sp ep s.lock_size s.locked_size
      s.lock_aspect_ratio s.aspect_ratio f
    let s :=
      match s.start_point_widget, s.end_point_widget with
      | some spw, some epw =>
        { s with crop_rect := some crop,
                 crop_rect_widget := some (update_widget_rect spw epw (moved_pixmap_rect s)) }
      | _, _ => { s with crop_rect := some crop }
    update_shadow_crops s s.shadow_count
  | _, _, _ => s

/-- The aspect-lock delta recomputation of adjust_crop_rect
(lines 403-437): for a resize mode with a locked ratio, one dimension drives
and the other delta is rederived from the target ratio. -/
def aspect_deltas (mode : Handle) (ow oh dx dy : Int) (target : Frac) : Int × Int :=
  match mode with
  | .resize_tl | .resize_tr | .resize_bl | .resize_br =>
    if |dy| < |dx| then
      let nw := if mode == .resize_tr || mode == .resize_br then ow + dx else ow - dx
      let nh := ((Frac.ofInt nw).div target).toInt
      let dy2 := if mode == .resize_tl || mode == .resize_tr then oh - nh else nh - oh
      (dx, dy2)
    else
      let nh := if mode == .resize_tl || mode == .resize_tr then oh - dy else oh + dy
      let nw := ((Frac.ofInt nh).mul target).toInt
      let dx2 := if mode == .resize_tl || mode == .resize_bl then ow - nw else nw - ow
      (dx2, dy)
  | .resize_t | .resize_b =>
    let nh := if mode = .resize_t then oh - dy else oh + dy
    let nw := ((Frac.ofInt nh).mul target).toInt
    (nw - ow, dy)
  | .resize_l | .resize_r =>
    let nw := if mode = .resize_l then ow - dx else ow + dx
    let nh := ((Frac.ofInt nw).div target).toInt
    (dx, nh - oh)
  | .move => (dx, dy)

/-- The mode-dependent widget-space rectangle of adjust_crop_rect
(lines 440-515); for move the position is constrained to the pixmap area
while the size is kept. -/
def mode_widget_rect (mode : Handle) (s : Widget) (orig : WRect) (dx dy : Int)
    (pr : WRect) : WRect :=
  match mode with
  | .move =>
    let nx := orig.left + dx
    let ny := orig.top + dy
    let nx := match s.base_pixmap with
      | some _ => max pr.left (min nx (pr.right - orig.width))
      | none => nx
    let ny := match s.base_pixmap with
      | some _ => max pr.top (min ny (pr.bottom - orig.height))
      | none => ny
    WRect.ofXYWH nx ny orig.width orig.height
  | .resize_tl => WRect.ofXYWH (orig.left + dx) (orig.top + dy) (orig.width - dx) (orig.height - dy)
  | .resize_tr => WRect.ofXYWH orig.left (orig.top + dy) (orig.width + dx) (orig.height - dy)
  | .resize_bl => WRect.ofXYWH (orig.left + dx) orig.top (orig.width - dx) (orig.height + dy)
  | .resize_br => WRect.ofXYWH orig.left orig.top (orig.width + dx) (orig.height + dy)
  | .resize_t  => WRect.ofXYWH orig.left (orig.top + dy) orig.width (orig.height - dy)
  | .resize_b  => WRect.ofXYWH orig.left orig.top orig.width (orig.height + dy)
  | .resize_l  => WRect.ofXYWH (orig.left + dx) orig.top (orig.width - dx) orig.height
  | .resize_r  => WRect.ofXYWH orig.left orig.top (orig.width + dx) orig.height

/-- One step of the pixmap-bounds clamp of adjust_crop_rect (lines 526-534):
a dragged left edge stops at the pixmap boundary, an overshooting opposite
edge shifts the rectangle keeping the original widget width ow. -/
def clamp_left_edge (mode : Handle) (r0 : WRect) (pl ow : Int) : WRect :=
  if r0.left < pl then
    match mode with
    | .resize_tl | .resize_bl | .resize_l => r0.setLeft pl
    | _ => (r0.setLeft pl).setRight (pl + ow)
  else r0

/-- Lines 536-542 of the clamp, for the top edge. -/
def clamp_top_edge (mode : Handle) (r0 : WRect) (pt oh : Int) : WRect :=
  if r0.top < pt then
    match mode with
    | .resize_tl | .resize_tr | .resize_t => r0.setTop pt
    | _ => (r0.setTop pt).setBottom (pt + oh)
  else r0

/-- Lines 544-550 of the clamp, for the right edge. -/
def clamp_right_edge (mode : Handle) (r0 : WRect) (pright ow : Int) : WRect :=
  if pright < r0.right then
    match mode with
    | .resize_tr | .resize_br | .resize_r => r0.setRight pright
    | _ => (r0.setRight pright).setLeft (pright - ow)
  else r0

/-- Lines 552-558 of the clamp, for the bottom edge. -/
def clamp_bottom_edge (mode : Handle) (r0 : WRect) (pbottom oh : Int) : WRect :=
  if pbottom < r0.bottom then
    match mode with
    | .resize_bl | .resize_br | .resize_b => r0.setBottom pbottom
    | _ => (r0.setBottom pbottom).setTop (pbottom - oh)
  else r0

/-- The pixmap-bounds clamp of adjust_crop_rect for resize modes
(lines 519-558), applied edge by edge in source order (ow, oh are the
original widget rectangle's width and height). -/
def clamp_widget_rect (mode : Handle) (r0 : WRect) (pr : WRect) (ow oh : Int) : WRect :=
  clamp_bottom_edge mode
    (clamp_right_edge mode
      (clamp_top_edge mode
        (clamp_left_edge mode r0 pr.left ow) pr.top oh) pr.right ow) pr.bottom oh

/-- Lines 564-568: a widget-space width below 10 is repaired by pinning the
edge opposite to the anchor. -/
def min_width_widget_rect (mode : Handle) (r0 : WRect) : WRect :=
  if r0.width < 10 then
    match mode with
    | .resize_tl | .resize_bl | .resize_l => r0.setLeft (r0.right - 10)
    | _ => r0.setRight (r0.left + 10)
  else r0

/-- Lines 569-573: the same for a height below 10. -/
def min_height_widget_rect (mode : Handle) (r0 : WRect) : WRect :=
  if r0.height < 10 then
    match mode with
    | .resize_tl | .resize_tr | .resize_t => r0.setTop (r0.bottom - 10)
    | _ => r0.setBottom (r0.top + 10)
  else r0

/-- The widget-space minimum-size enforcement of adjust_crop_rect
(lines 563-573). -/
def min_size_widget_rect (mode : Handle) (r0 : WRect) : WRect :=
  min_height_widget_rect mode (min_width_widget_rect mode r0)

/-- The move-mode frame clamp of one axis (lines 589-600 for x: clamp the
position keeping the original size, then pin to the far edge when still
overshooting). -/
def move_axis (extent pos size : Int) : Int × Int :=
  let a1 := max 0 (min pos (extent - size))
  let a2 := a1 + size
  if extent < a2 then (extent - size, extent) else (a1, a2)

/-- The resize-mode frame clamp of one axis (lines 603-606 for x). -/
def resize_axis (extent p1 p2 : Int) : Int × Int :=
  let a1 := max 0 (min p1 (extent - 1))
  let a2 := max (a1 + 1) (min p2 extent)
  (a1, a2)

/-- The minimum-size repair and final validation of one axis
(lines 609-628 for x): the repairs of the two axes are interleaved in the
source but touch disjoint variables, so they are grouped per axis here; the
outer disjunction test of the validation is redundant, every repair being
individually guarded. -/
def repair_axis (extent a1 a2 : Int) : Int × Int :=
  let b2 := if a2 ≤ a1 then min (a1 + 1) extent else a2
  let t := if a1 < 0 then ((0 : Int), b2 - a1) else (a1, b2)
  if extent < t.2 then (max 0 (t.1 - (t.2 - extent)), extent) else t

/-- The unconstrained part of the frame-space computation (lines 588-628):
mode-dependent clamping, the minimum-size repair, and the final
validation.  ow and oh are the original frame rectangle's dimensions. -/
def adjust_frame_pre (mode : Handle) (ow oh : Int) (tl br : Pt) (f : Frame) :
    Int × Int × Int × Int :=
  let cx := if mode = .move then move_axis f.width tl.x ow
            else resize_axis f.width tl.x br.x
  let cy := if mode = .move then move_axis f.height tl.y oh
            else resize_axis f.height tl.y br.y
  let rx := repair_axis f.width cx.1 cx.2
  let ry := repair_axis f.height cy.1 cy.2
  (rx.1, ry.1, rx.2, ry.2)

/-- The constrained tail of the frame-space computation (lines 630-651):
the optional constraint and the final clamp, which for a constrained move
preserves the constrained size. -/
def adjust_frame_post (mode : Handle) (lockS : Bool) (lockedS : Option (Int × Int))
    (lockA : Bool) (ar : Option (Int × Int)) (f : Frame)
    (q : Int × Int × Int × Int) : Rect :=
  let c2 :=
    if lockS ∧ lockedS.isSome then apply_size_constraint q.1 q.2.1 q.2.2.1 q.2.2.2 lockedS
    else if lockA ∧ ar.isSome then
      apply_aspect_ratio_constraint q.1 q.2.1 q.2.2.1 q.2.2.2 ar
    else q
  let x1 := c2.1; let y1 := c2.2.1; let x2 := c2.2.2.1; let y2 := c2.2.2.2
  if mode = .move ∧ (lockS ∨ lockA) then
    let fw := x2 - x1
    let fh := y2 - y1
    let x1 := max 0 (min x1 (f.width - fw))
    let y1 := max 0 (min y1 (f.height - fh))
    ⟨x1, y1, fw, fh⟩
  else
    let x1 := max 0 (min x1 (f.width - 1))
    let y1 := max 0 (min y1 (f.height - 1))
    let x2 := max 0 (min x2 f.width)
    let y2 := max 0 (min y2 f.height)
    ⟨x1, y1, x2 - x1, y2 - y1⟩

/-- The frame-space computation of adjust_crop_rect (lines 581-651), from
the frame coordinates tl, br of the new widget rectangle's corners: the
reference size falls back to the corner difference when no original
rectangle was snapshotted, then the unconstrained part and the constrained
tail run in source order. -/
def adjust_frame_rect (mode : Handle) (orig_frame : Option Rect) (tl br : Pt)
    (lockS : Bool) (lockedS : Option (Int × Int)) (lockA : Bool)
    (ar : Option (Int × Int)) (f : Frame) : Rect :=
  let ow := match orig_frame with | some o => o.w | none => br.x - tl.x
  let oh := match orig_frame with | some o => o.h | none => br.y - tl.y
  adjust_frame_post mode lockS lockedS lockA ar f
    (adjust_frame_pre mode ow oh tl br f)

/-- adjust_crop_rect (lines 384-661).  The guards of the source (missing
original widget rectangle or frame, and the unknown-mode early return of
line 516) leave the state unchanged; a missing start_point_widget would
raise in Python and is likewise modelled as no change (it cannot occur
through the event handlers, which set it on every press).  The emitted
crop_changed signal is folded into update_shadow_crops as for
update_crop_rect. -/
def adjust_crop_rect (s : Widget) (mouse0 : Pt) : Widget :=
  match s.original_crop_rect_widget, s.current_frame, s.start_point_widget,
        s.adjust_mode with
  | some orig, some f, some spw, some mode =>
    let pr := moved_pixmap_rect s
    let mouse : Pt := match s.base_pixmap with
      | some _ => ⟨max pr.left (min mouse0.x pr.right), max pr.top (min mouse0.y pr.bottom)⟩
      | none => mouse0
    let dx0 := mouse.x - spw.x
    let dy0 := mouse.y - spw.y
    let dxy :=
      match s.aspect_ratio with
      | some (rw, rh) =>
        if s.lock_aspect_ratio ∧ mode ≠ .move then
          aspect_deltas mode orig.width orig.height dx0 dy0
            ((Frac.ofInt rw).div (Frac.ofInt rh))
        else (dx0, dy0)
      | none => (dx0, dy0)
    let nrw0 := mode_widget_rect mode s orig dxy.1 dxy.2 pr
    let nrw1 := if mode ≠ .move ∧ s.base_pixmap.isSome then
                  clamp_widget_rect mode nrw0 pr orig.width orig.height
                else nrw0
    let nrw := min_size_widget_rect mode nrw1
    let s1 := { s with crop_rect_widget := some nrw }
    match widget_to_frame_coords s1 nrw.topLeft,
          widget_to_frame_coords s1 nrw.bottomRight with
    | some tlf, some brf =>
      let crop := adjust_frame_rect mode s1.original_crop_rect tlf brf
        s1.lock_size s1.locked_size s1.lock_aspect_ratio s1.aspect_ratio f
      let tlw := frame_to_widget_coords s1 crop.topLeft
      let brw := frame_to_widget_coords s1 crop.bottomRight
      let s2 := { s1 with crop_rect := some crop,
                          crop_rect_widget := some ⟨tlw.x, tlw.y, brw.x, brw.y⟩ }
      update_shadow_crops s2 s2.shadow_count
    | _, _ => s1
  | _, _, _, _ => s

/-- mousePressEvent, left button (lines 267-297). -/
def mousePressEvent (s : Widget) (p : Pt) : Widget :=
  match s.current_frame with
  | none => s
  | some _ =>
    let handle := if s.crop_rect_widget.isSome then get_crop_handle_at s p else none
    match handle with
    | some h =>
      { s with adjusting := true, adjust_mode := some h,
               original_crop_rect := s.crop_rect,
               original_crop_rect_widget := s.crop_rect_widget,
               start_point_widget := some p, end_point_widget := some p }
    | none =>
      let s := { s with drawing := true, adjusting := false, adjust_mode := none }
      match widget_to_frame_coords s p with
      | some fp =>
        update_crop_rect { s with start_point := some fp, end_point := some fp,
                                  start_point_widget := some p, end_point_widget := some p }
      | none => s

/-- The mouse-position preprocessing of the drawing branch of
mouseMoveEvent (lines 316-360): clamp to the pixmap area, and with a locked
aspect ratio move the endpoint so the dragged box keeps the target ratio
(larger delta drives), then re-clamp. -/
def draw_move_point (s : Widget) (p0 : Pt) : Pt :=
  let pr := moved_pixmap_rect s
  let p1 : Pt := match s.base_pixmap with
    | some _ => ⟨max pr.left (min p0.x pr.right), max pr.top (min p0.y pr.bottom)⟩
    | none => p0
  match s.aspect_ratio, s.start_point_widget with
  | some (rw, rh), some spw =>
    if s.lock_aspect_ratio then
      let dx := p1.x - spw.x
      let dy := p1.y - spw.y
      let target := (Frac.ofInt rw).div (Frac.ofInt rh)
      let p2 : Pt :=
        if |dy| < |dx| then
          let cw := |dx|
          let ch := ((Frac.ofInt cw).div target).toInt
          ⟨if dx < 0 then spw.x - cw else spw.x + cw,
           if dy < 0 then spw.y - ch else spw.y + ch⟩
        else
          let ch := |dy|
          let cw := ((Frac.ofInt ch).mul target).toInt
          ⟨if dx < 0 then spw.x - cw else spw.x + cw,
           if dy < 0 then spw.y - ch else spw.y + ch⟩
      match s.base_pixmap with
      | some _ => ⟨max pr.left (min p2.x pr.right), max pr.top (min p2.y pr.bottom)⟩
      | none => p2
    else p1
  | _, _ => p1

/-- mouseMoveEvent (lines 299-368).  The cursor-shape update of the hover
branch is pure presentation and carries no modelled state. -/
def mouseMoveEvent (s : Widget) (p0 : Pt) : Widget :=
  if s.adjusting ∧ s.current_frame.isSome ∧ s.original_crop_rect_widget.isSome then
    adjust_crop_rect s p0
  else if s.drawing ∧ s.current_frame.isSome then
    let p2 := draw_move_point s p0
    match widget_to_frame_coords s p2 with
    | some fp =>
      update_crop_rect { s with end_point := some fp, end_point_widget := some p2 }
    | none => s
  else s

/-- mouseReleaseEvent, left button (lines 370-382). -/
def mouseReleaseEvent (s : Widget) : Widget :=
  if s.adjusting then
    { s with adjusting := false, adjust_mode := none,
             original_crop_rect := none, original_crop_rect_widget := none }
  else
    let s := { s with drawing := false }
    if s.start_point.isSome ∧ s.end_point.isSome then update_crop_rect s else s

/-- clear_crop (lines 795-805). -/
def clear_crop (s : Widget) : Widget :=
  { s with crop_rect := none, crop_rect_widget := none,
           shadow_crop_rects := [], shadow_crop_rects_widget := [],
           start_point := none, end_point := none,
           start_point_widget := none, end_point_widget := none }

/-- update_base_pixmap (lines 75-107): cache the scaled pixmap's dimensions
(pw, ph, computed by the external Qt scaler) and the derived transform:
scale = pixmap size / frame size per axis, offset centers the pixmap in the
widget. -/
def update_base_pixmap (s : Widget) (pw ph : Int) : Widget :=
  match s.current_frame with
  | none => s
  | some f =>
    { s with base_pixmap := some (pw, ph),
             frame_to_widget_scale_x := (Frac.ofInt pw).div (Frac.ofInt f.width),
             frame_to_widget_scale_y := (Frac.ofInt ph).div (Frac.ofInt f.height),
             widget_offset_x := (Frac.ofInt (s.widget_width - pw)).div (Frac.ofInt 2),
             widget_offset_y := (Frac.ofInt (s.widget_height - ph)).div (Frac.ofInt 2) }

/-- resizeEvent (lines 807-819): the widget takes its new size; with a frame
loaded the pixmap and transform are recomputed and the widget-space crop and
shadow rectangles are rederived, the content-space crop unchanged. -/
def resizeEvent (s : Widget) (ww wh pw ph : Int) : Widget :=
  let s := { s with widget_width := ww, widget_height := wh }
  match s.current_frame with
  | none => s
  | some _ =>
    let s := update_base_pixmap s pw ph
    match s.crop_rect with
    | some crop =>
      let tlw := frame_to_widget_coords s crop.topLeft
      let brw := frame_to_widget_coords s crop.bottomRight
      let s := { s with crop_rect_widget := some ⟨tlw.x, tlw.y, brw.x, brw.y⟩ }
      update_shadow_crops s s.shadow_count
    | none => s

/-- set_shadow_count (lines 663-668). -/
def set_shadow_count (s : Widget) (count : Int) : Widget :=
  let s := { s with shadow_count := count }
  if s.crop_rect.isSome then update_shadow_crops s count else s

/-- The interaction events of the preview widget. -/
inductive Ev where
  | press (p : Pt)
  | move (p : Pt)
  | release
  | resize (ww wh pw ph : Int)
deriving DecidableEq, Repr

def stepEv (s : Widget) : Ev → Widget
  | .press p => mousePressEvent s p
  | .move p => mouseMoveEvent s p
  | .release => mouseReleaseEvent s
  | .resize ww wh pw ph => resizeEvent s ww wh pw ph

def runEvs (s : Widget) (evs : List Ev) : Widget := evs.foldl stepEv s

/-- The widget as constructed (lines 25-64): no frame, no crop, identity
transform cache, handle size 10, no constraints, one segment, at its
minimum size 640 x 360. -/
def initial_widget : Widget :=
  { current_frame := none, crop_rect := none, crop_rect_widget := none,
    shadow_crop_rects := [], shadow_crop_rects_widget := [],
    drawing := false, adjusting := false, adjust_mode := none,
    start_point := none, end_point := none,
    start_point_widget := none, end_point_widget := none,
    original_crop_rect := none, original_crop_rect_widget := none,
    frame_to_widget_scale_x := Frac.ofInt 1, frame_to_widget_scale_y := Frac.ofInt 1,
    widget_offset_x := Frac.ofInt 0, widget_offset_y := Frac.ofInt 0,
    handle_size := 10, lock_aspect_ratio := false, aspect_ratio := none,
    lock_size := false, locked_size := none, shadow_count := 1,
    widget_width := 640, widget_height := 360, base_pixmap := none }

/-- A widget of size ww x wh with a frame of fw x fh loaded and the base
pixmap of pw x ph (dimensions supplied by the external Qt scaler) cached. -/
def load_frame_state (fw fh ww wh pw ph : Int) : Widget :=
  update_base_pixmap
    { initial_widget with current_frame := some ⟨fw, fh⟩,
                          widget_width := ww, widget_height := wh } pw ph

/-- The entries of the aspect-ratio combo box (the locale-dependent labels
of the free and custom entries are abstracted to selectors). -/
inductive AspectSel where
  | free | r16_9 | r4_3 | r1_1 | r21_9 | r9_16 | r3_4 | custom
deriving DecidableEq, Repr

/-- The ratio_map of on_aspect_ratio_changed (lines 1296-1303); the free and
custom entries are handled separately by the handler. -/
def ratio_map : AspectSel → Option (Int × Int)
  | .r16_9 => some (16, 9)
  | .r4_3 => some (4, 3)
  | .r1_1 => some (1, 1)
  | .r21_9 => some (21, 9)
  | .r9_16 => some (9, 16)
  | .r3_4 => some (3, 4)
  | _ => none

/-- The crop-related state of MainWindow together with its preview widget.
MainWindow.crop_rect mirrors the widget's rectangle through the
crop_changed signal and is cleared alongside it, so the widget's crop_rect
is the rectangle of record. -/
structure App where
  preview_widget : Widget
  crop_aspect_ratio : Option (Int × Int)
  aspect_ratio_combo : AspectSel
  lock_aspect_checkbox : Bool
  custom_width_spin : Int
  custom_height_spin : Int
deriving DecidableEq, Repr

/-- The two mutually cascading UI signals: a combo selection change and a
lock-checkbox toggle. -/
inductive UiMsg where
  | aspectChanged (sel : AspectSel)
  | lockToggled (locked : Bool)
deriving DecidableEq, Repr

/-- The body of on_aspect_ratio_changed (lines 1291-1333).  set_checked is
the action of lock_aspect_checkbox.setChecked, which Qt delivers
synchronously: it stores the new state and fires on_lock_aspect_toggled
when the state actually changes (supplied by uiRun with the remaining
cascade fuel).  Note the source captures old_ratio only after the custom
branch has already updated the ratio, so selecting Custom never clears. -/
def aspect_changed_body (set_checked : App → Bool → App) (a0 : App)
    (sel : AspectSel) : App :=
  let a :=
    match sel with
    | .custom =>
      set_checked
        { a0 with crop_aspect_ratio := some (a0.custom_width_spin, a0.custom_height_spin) }
        true
    | _ => a0
  let old := a.crop_aspect_ratio
  let a :=
    match sel with
    | .free => set_checked { a with crop_aspect_ratio := none } false
    | .custom => a
    | _ => set_checked { a with crop_aspect_ratio := ratio_map sel } true
  let a :=
    if old = a.crop_aspect_ratio then a
    else { a with preview_widget := clear_crop a.preview_widget }
  { a with preview_widget :=
      { a.preview_widget with
        aspect_ratio := a.crop_aspect_ratio,
        lock_aspect_ratio := a.crop_aspect_ratio.isSome } }

/-- The body of on_lock_aspect_toggled (lines 1354-1366).  set_combo is the
action of aspect_ratio_combo.setCurrentText, which stores the new selection
and fires on_aspect_ratio_changed when it actually changes. -/
def lock_toggled_body (set_combo : App → AspectSel → App) (a0 : App)
    (locked : Bool) : App :=
  let a :=
    if locked then a0
    else set_combo { a0 with crop_aspect_ratio := none } .free
  let a := { a with preview_widget :=
      { a.preview_widget with
        lock_aspect_ratio := locked,
        aspect_ratio := if locked then a.crop_aspect_ratio else none } }
  if a.preview_widget.crop_rect.isSome then
    { a with preview_widget := update_crop_rect a.preview_widget }
  else a

/-- The two handlers with their mutual setChecked/setCurrentText cascades;
the fuel bounds the cascade depth (at most three from any user action, so
the entry points pass fuel 4). -/
def uiRun : Nat → App → UiMsg → App
  | 0, a, _ => a
  | n + 1, a, .aspectChanged sel =>
    aspect_changed_body
      (fun a1 b =>
        if a1.lock_aspect_checkbox = b then a1
        else uiRun n { a1 with lock_aspect_checkbox := b } (.lockToggled b))
      a sel
  | n + 1, a, .lockToggled locked =>
    lock_toggled_body
      (fun a1 sel =>
        if a1.aspect_ratio_combo = sel then a1
        else uiRun n { a1 with aspect_ratio_combo := sel } (.aspectChanged sel))
      a locked

/-- A user changing the combo selection: Qt stores the new text, then fires
currentTextChanged (only on an actual change). -/
def on_aspect_ratio_changed (a : App) (sel : AspectSel) : App :=
  if a.aspect_ratio_combo = sel then a
  else uiRun 4 { a with aspect_ratio_combo := sel } (.aspectChanged sel)

/-- A user toggling the lock checkbox: Qt stores the new state, then fires
toggled (only on an actual change). -/
def on_lock_aspect_toggled (a : App) (locked : Bool) : App :=
  if a.lock_aspect_checkbox = locked then a
  else uiRun 4 { a with lock_aspect_checkbox := locked } (.lockToggled locked)

/-- on_custom_ratio_changed (lines 1335-1352), fired after a custom spin
box stores a new value. -/
def on_custom_ratio_changed (a : App) : App :=
  if a.aspect_ratio_combo = .custom then
    let old := a.crop_aspect_ratio
    let a := { a with crop_aspect_ratio := some (a.custom_width_spin, a.custom_height_spin) }
    let a :=
      if old = a.crop_aspect_ratio then a
      else { a with preview_widget := clear_crop a.preview_widget }
    { a with preview_widget :=
        { a.preview_widget with
          aspect_ratio := a.crop_aspect_ratio,
          lock_aspect_ratio := true } }
  else a

/-- A user editing the custom width spin box (valueChanged fires only on an
actual change). -/
def set_custom_width_spin (a : App) (v : Int) : App :=
  if a.custom_width_spin = v then a
  else on_custom_ratio_changed { a with custom_width_spin := v }

/-- A user editing the custom height spin box. -/
def set_custom_height_spin (a : App) (v : Int) : App :=
  if a.custom_height_spin = v then a
  else on_custom_ratio_changed { a with custom_height_spin := v }

/-- The documented invariant of a committed content-space rectangle. -/
def InvRect (f : Frame) (r : Rect) : Prop :=
  0 ≤ r.x ∧ 0 ≤ r.y ∧ r.x + r.w ≤ f.width ∧ r.y + r.h ≤ f.height ∧ 1 ≤ r.w ∧ 1 ≤ r.h

/-- The state invariant carried through the event induction: a nonempty
loaded frame, no active size or aspect constraint, and every committed and
snapshotted rectangle in bounds. -/
def GoodState (f : Frame) (s : Widget) : Prop :=
  1 ≤ f.width ∧ 1 ≤ f.height ∧
  s.current_frame = some f ∧
  s.lock_size = false ∧
  s.lock_aspect_ratio = false ∧
  (∀ r, s.crop_rect = some r → InvRect f r) ∧
  (∀ r, s.original_crop_rect = some r → InvRect f r)

/-- The shape of one axis of the frame clamp of adjust_crop_rect before the
final validation: a nonnegative left edge and either an in-bounds positive
extent or an overshooting left edge with the right edge pinned to the
frame. -/
def AxisOK (extent a b : Int) : Prop :=
  0 ≤ a ∧ ((a < b ∧ b ≤ extent) ∨ (extent ≤ a ∧ b = extent))

/-- The effective ratio a combo selection maps to: none for free, the
current custom spin values for custom, the fixed table otherwise. -/
def ratio_of_selection (a : App) (sel : AspectSel) : Option (Int × Int) :=
  match sel with
  | .free => none
  | .custom => some (a.custom_width_spin, a.custom_height_spin)
  | _ => ratio_map sel

/-- A 640 x 360 widget showing a 640 x 360 frame (unit scale, no offset). -/
def widget640 : Widget := load_frame_state 640 360 640 360 640 360

/-- A 640 x 360 widget showing a 250 x 200 frame (the Qt letterbox fit is a
450 x 360 pixmap) with the primary rectangle at {0, 0, 100, 50}. -/
def widget250 : Widget :=
  { load_frame_state 250 200 640 360 450 360 with crop_rect := some ⟨0, 0, 100, 50⟩ }

/-- A draw gesture followed by a move-adjust gesture; afterwards the widget
is idle with the stale draw anchors (100,100) and (200,150) still
recorded. -/
def draw_then_adjust_events : List Ev :=
  [.press ⟨100, 100⟩, .move ⟨200, 150⟩, .release,
   .press ⟨150, 125⟩, .move ⟨180, 125⟩, .release]

/-- The idle state reached after draw_then_adjust_events on widget640. -/
def idle_after_adjust : Widget := runEvs widget640 draw_then_adjust_events

/-- widget640 with the fixed-size constraint 320 x 240 active. -/
def widget640_fixed : Widget :=
  { widget640 with lock_size := true, locked_size := some (320, 240) }

/-- Draw a crop near the right edge, then drag its right-edge handle: the
final move event is a resize update under the fixed-size constraint. -/
def fixed_resize_events : List Ev :=
  [.press ⟨400, 100⟩, .move ⟨600, 300⟩, .release,
   .press ⟨602, 200⟩, .move ⟨610, 200⟩]

/-- An 800 x 400 widget showing a 200 x 200 frame (Qt fit: 400 x 400 pixmap,
scale 2, x offset 200) with the fixed-size constraint 320 x 240 active, a
locked size larger than the content frame. -/
def widget200_fixed : Widget :=
  { load_frame_state 200 200 800 400 400 400 with
    lock_size := true, locked_size := some (320, 240) }

/-- Draw, then drag the interior (move handle): the final move event is a
move update under the fixed-size constraint. -/
def fixed_move_events : List Ev :=
  [.press ⟨300, 100⟩, .move ⟨460, 300⟩, .release,
   .press ⟨380, 200⟩, .move ⟨390, 200⟩]

/-- widget640 with the aspect-ratio constraint 2:1 active. -/
def widget640_aspect21 : Widget :=
  { widget640 with lock_aspect_ratio := true, aspect_ratio := some (2, 1) }

/-- Draw a clamped (hence off-ratio) crop against the right edge, then drag
its interior: the final move event re-applies the 2:1 ratio to the clamped
rectangle and inflates its width past the frame. -/
def aspect_move_events : List Ev :=
  [.press ⟨500, 0⟩, .move ⟨600, 340⟩, .release,
   .press ⟨570, 170⟩, .move ⟨575, 170⟩]

/-- widget640 with the aspect-ratio constraint 16:9 active. -/
def widget640_aspect169 : Widget :=
  { widget640 with lock_aspect_ratio := true, aspect_ratio := some (16, 9) }

/-- Draw a 160 x 90 crop, then drag its right-edge handle by 8 pixels: a
drag-resize under the 16:9 lock. -/
def aspect_resize_events : List Ev :=
  [.press ⟨100, 100⟩, .move ⟨260, 190⟩, .release,
   .press ⟨262, 150⟩, .move ⟨270, 150⟩]

/-- A 640 x 360 widget showing a 6400 x 3600 frame: the letterbox fit is the
whole 640 x 360 surface, a display scale of one tenth. -/
def widget_downscaled : Widget := load_frame_state 6400 3600 640 360 640 360

/-- The application right after importing a video into widget640 and
drawing a free crop rectangle: combo on free, lock checkbox off. -/
def drawn_app : App :=
  { preview_widget := runEvs widget640 [.press ⟨100, 100⟩, .move ⟨200, 150⟩, .release],
    crop_aspect_ratio := none,
    aspect_ratio_combo := .free,
    lock_aspect_checkbox := false,
    custom_width_spin := 16,
    custom_height_spin := 9 }

/-! Theorems. -/

/-- C10: when no content frame is loaded, a press event leaves the widget
state entirely unchanged (mousePressEvent returns before touching any
field). -/
theorem press_without_frame_is_noop (s : Widget) (p : Pt)
    (h : s.current_frame = none) : mousePressEvent s p = s := by
  unfold mousePressEvent
  rw [h]

theorem press_without_frame_is_noop_witness :
    initial_widget.current_frame = none ∧
    mousePressEvent initial_widget ⟨5, 7⟩ = initial_widget :=
  ⟨rfl, press_without_frame_is_noop initial_widget ⟨5, 7⟩ rfl⟩

/-- C9: a point within the handle tolerance of both the top edge and the
left edge of the widget-space crop rectangle classifies as the top-left
corner handle, never as the top or left edge handle (corners are tested
first in get_crop_handle_at). -/
theorem handle_priority_top_left (s : Widget) (rect : WRect) (p : Pt)
    (hr : s.crop_rect_widget = some rect)
    (htop : |p.y - rect.top| ≤ s.handle_size ∧ rect.left ≤ p.x ∧ p.x ≤ rect.right)
    (hleft : |p.x - rect.left| ≤ s.handle_size ∧ rect.top ≤ p.y ∧ p.y ≤ rect.bottom) :
    get_crop_handle_at s p = some .resize_tl ∧
    get_crop_handle_at s p ≠ some .resize_t ∧
    get_crop_handle_at s p ≠ some .resize_l := by
  have h1 : get_crop_handle_at s p = some .resize_tl := by
    unfold get_crop_handle_at
    rw [hr]
    exact if_pos ⟨hleft.1, htop.1⟩
  refine ⟨h1, ?_, ?_⟩ <;> simp [h1]

theorem handle_priority_top_left_witness :
    (|(103 : Int) - (100 : Int)| ≤ (10 : Int)) ∧
    get_crop_handle_at
      { initial_widget with crop_rect_widget := some ⟨100, 100, 300, 250⟩ }
      ⟨105, 103⟩ = some .resize_tl :=
  ⟨by decide,
   (handle_priority_top_left
      { initial_widget with crop_rect_widget := some ⟨100, 100, 300, 250⟩ }
      ⟨100, 100, 300, 250⟩ ⟨105, 103⟩ rfl (by decide) (by decide)).1⟩

/-- C3 (counterexample): with primary {0, 0, 100, 50}, content 250 x 200 and
count 4, replica generation does not yield two replicas: the candidate at
x = 200 already has right edge 300 > 250 and is excluded, so only the
replica at x = 100 remains. -/
theorem replica_example_counterexample :
    ((update_shadow_crops widget250 4).shadow_crop_rects).length ≠ 2 ∧
    (update_shadow_crops widget250 4).shadow_crop_rects ≠
      [⟨100, 0, 100, 50⟩, ⟨200, 0, 100, 50⟩] := by decide

/-- C3 (amended): with primary {0, 0, 100, 50}, content 250 x 200 and count
4, replica generation yields exactly one replica, at x = 100 (the candidate
at x = 200 is excluded since 200 + 100 > 250); with count 1 it yields
none. -/
theorem replica_example_amended :
    (update_shadow_crops widget250 4).shadow_crop_rects = [⟨100, 0, 100, 50⟩] ∧
    (update_shadow_crops widget250 1).shadow_crop_rects = [] := by decide

/-- C8 (amended): a release event while the editor is idle (no drawing or
adjusting gesture in progress) leaves the state unchanged provided no draw
anchor points are recorded; mouseReleaseEvent otherwise re-runs
update_crop_rect on the stale anchors. -/
theorem release_while_idle_noop (s : Widget)
    (hd : s.drawing = false) (ha : s.adjusting = false)
    (hp : s.start_point = none ∨ s.end_point = none) :
    mouseReleaseEvent s = s := by
  rcases s with ⟨cf, cr, crw, sr, srw, dr, adj, am, sp, ep, spw, epw, ocr, ocrw,
    fx, fy, ox, oy, hsz, lar, ar, ls, lsz, sc, ww, wh, bp⟩
  dsimp only at hd ha hp
  subst hd
  subst ha
  rcases hp with h | h <;> subst h <;> simp [mouseReleaseEvent]

theorem release_while_idle_noop_witness :
    widget640.drawing = false ∧ widget640.adjusting = false ∧
    widget640.start_point = none ∧
    mouseReleaseEvent widget640 = widget640 :=
  ⟨rfl, rfl, rfl, release_while_idle_noop widget640 rfl rfl (Or.inl rfl)⟩

/-- C8 (counterexample): after a draw gesture and then a move-adjust
gesture the widget is idle, but a further release event recomputes the
rectangle from the stale draw anchors, moving the committed rectangle from
(130, 100) back to (100, 100): a release while idle is not a no-op. -/
theorem release_while_idle_counterexample :
    idle_after_adjust.drawing = false ∧
    idle_after_adjust.adjusting = false ∧
    idle_after_adjust.crop_rect = some ⟨130, 100, 100, 50⟩ ∧
    (mouseReleaseEvent idle_after_adjust).crop_rect = some ⟨100, 100, 100, 50⟩ ∧
    mouseReleaseEvent idle_after_adjust ≠ idle_after_adjust := by decide

/-- C5: replica generation.  With a committed primary rectangle and a
loaded frame, the replica list is shadow_rects; replica i (for i in
1..n-1) is the primary shifted right by i times its width and is included
exactly when its right edge stays within the content width; every generated
replica is of that shape; and n at most 1 yields no replicas. -/
theorem replica_generation_spec (crop : Rect) (f : Frame) (n : Int) (s : Widget)
    (hc : s.crop_rect = some crop) (hf : s.current_frame = some f) :
    (1 < n → (update_shadow_crops s n).shadow_crop_rects = shadow_rects crop f n) ∧
    (n ≤ 1 → (update_shadow_crops s n).shadow_crop_rects = []) ∧
    (∀ i : Int, 1 ≤ i → i ≤ n - 1 →
      ((⟨crop.x + crop.w * i, crop.y, crop.w, crop.h⟩ : Rect) ∈ shadow_rects crop f n ↔
        crop.x + crop.w * i + crop.w ≤ f.width)) ∧
    (∀ r ∈ shadow_rects crop f n, ∃ i : Int, 1 ≤ i ∧ i ≤ n - 1 ∧
      r = ⟨crop.x + crop.w * i, crop.y, crop.w, crop.h⟩ ∧
      crop.x + crop.w * i + crop.w ≤ f.width) := by
  have hmem : ∀ r : Rect, r ∈ shadow_rects crop f n ↔
      ∃ a : ℕ, 1 ≤ a ∧ (a : Int) ≤ n - 1 ∧
        crop.x + crop.w * (a : Int) + crop.w ≤ f.width ∧
        r = ⟨crop.x + crop.w * (a : Int), crop.y, crop.w, crop.h⟩ := by
    intro r
    unfold shadow_rects
    rw [List.mem_filterMap]
    constructor
    · rintro ⟨a, ha, heq⟩
      rw [List.mem_range'_1] at ha
      dsimp only at heq
      split at heq
      · next hcond =>
        exact ⟨a, by omega, by omega, hcond, (Option.some_inj.mp heq).symm⟩
      · exact absurd heq (by simp)
    · rintro ⟨a, h1, h2, hcond, hr⟩
      refine ⟨a, ?_, ?_⟩
      · rw [List.mem_range'_1]
        omega
      · dsimp only
        rw [if_pos hcond, hr]
  refine ⟨?_, ?_, ?_, ?_⟩
  · intro hn
    unfold update_shadow_crops
    rw [hc, hf]
    dsimp only
    rw [if_neg (show ¬ n ≤ 1 by omega)]
  · intro hn
    unfold update_shadow_crops
    rw [hc, hf]
    dsimp only
    rw [if_pos hn]
  · intro i hi1 hi2
    rw [hmem]
    constructor
    · rintro ⟨a, h1, h2, hcond, hr⟩
      rw [Rect.mk.injEq] at hr
      have hwa : crop.w * (a : Int) = crop.w * i := by linarith [hr.1]
      linarith [hcond, hwa]
    · intro hcond
      exact ⟨i.toNat, by omega,
        by rw [Int.toNat_of_nonneg (by omega)]; omega,
        by rw [Int.toNat_of_nonneg (by omega)]; exact hcond,
        by rw [Int.toNat_of_nonneg (by omega)]⟩
  · intro r hr
    rw [hmem] at hr
    obtain ⟨a, h1, h2, hcond, hr⟩ := hr
    exact ⟨(a : Int), by omega, h2, hr, hcond⟩

theorem replica_generation_spec_witness :
    widget250.crop_rect = some ⟨0, 0, 100, 50⟩ ∧
    ((⟨100, 0, 100, 50⟩ : Rect) ∈
        shadow_rects ⟨0, 0, 100, 50⟩ ⟨250, 200⟩ 4 ↔
      (0 : Int) + 100 * 1 + 100 ≤ 250) :=
  ⟨by decide,
   by
    have h := (replica_generation_spec ⟨0, 0, 100, 50⟩ ⟨250, 200⟩ 4 widget250
      (by decide) (by decide)).2.2.1 1 (by decide) (by decide)
    simpa using h⟩

theorem adjust_frame_post_move_locked (tw th : Int) (lockA : Bool)
    (ar : Option (Int × Int)) (f : Frame) (q : Int × Int × Int × Int) :
    (adjust_frame_post .move true (some (tw, th)) lockA ar f q).w = tw ∧
    (adjust_frame_post .move true (some (tw, th)) lockA ar f q).h = th := by
  unfold adjust_frame_post apply_size_constraint
  simp

theorem adjust_frame_post_resize_locked (mode : Handle) (hm : mode ≠ .move)
    (tw th : Int) (lockA : Bool) (ar : Option (Int × Int)) (f : Frame)
    (q : Int × Int × Int × Int) (hx0 : 0 ≤ q.1) (hy0 : 0 ≤ q.2.1)
    (hx : q.1 + tw ≤ f.width) (hy : q.2.1 + th ≤ f.height)
    (htw : 1 ≤ tw) (hth : 1 ≤ th) :
    (adjust_frame_post mode true (some (tw, th)) lockA ar f q).w = tw ∧
    (adjust_frame_post mode true (some (tw, th)) lockA ar f q).h = th := by
  unfold adjust_frame_post apply_size_constraint
  rw [if_neg (by simp [hm])]
  simp
  omega

theorem repair_axis_nonneg (extent a1 a2 : Int) :
    0 ≤ (repair_axis extent a1 a2).1 := by
  unfold repair_axis
  dsimp only
  split_ifs <;> dsimp only <;> omega

theorem adjust_frame_pre_nonneg (mode : Handle) (ow oh : Int) (tl br : Pt)
    (f : Frame) :
    0 ≤ (adjust_frame_pre mode ow oh tl br f).1 ∧
    0 ≤ (adjust_frame_pre mode ow oh tl br f).2.1 := by
  unfold adjust_frame_pre
  exact ⟨repair_axis_nonneg _ _ _, repair_axis_nonneg _ _ _⟩

/-- C2 (amended): with the fixed size 320 x 240 active, every move update
commits a rectangle of exactly that size (even when it does not fit in the
frame); a resize update commits exactly that size provided the locked
rectangle anchored at the clamped top-left corner fits within the content
frame, and is otherwise clipped at the content boundary. -/
theorem fixed_size_amended (mode : Handle) (orig : Rect) (tl br : Pt)
    (lockA : Bool) (ar : Option (Int × Int)) (f : Frame) :
    (mode = .move →
      (adjust_frame_rect mode (some orig) tl br true (some (320, 240)) lockA ar f).w = 320 ∧
      (adjust_frame_rect mode (some orig) tl br true (some (320, 240)) lockA ar f).h = 240) ∧
    (mode ≠ .move →
      (adjust_frame_pre mode orig.w orig.h tl br f).1 + 320 ≤ f.width →
      (adjust_frame_pre mode orig.w orig.h tl br f).2.1 + 240 ≤ f.height →
      (adjust_frame_rect mode (some orig) tl br true (some (320, 240)) lockA ar f).w = 320 ∧
      (adjust_frame_rect mode (some orig) tl br true (some (320, 240)) lockA ar f).h = 240) := by
  constructor
  · rintro rfl
    unfold adjust_frame_rect
    exact adjust_frame_post_move_locked 320 240 lockA ar f _
  · intro hm hx hy
    unfold adjust_frame_rect
    exact adjust_frame_post_resize_locked mode hm 320 240 lockA ar f _
      (adjust_frame_pre_nonneg mode orig.w orig.h tl br f).1
      (adjust_frame_pre_nonneg mode orig.w orig.h tl br f).2
      hx hy (by norm_num) (by norm_num)

theorem fixed_size_amended_witness :
    ((.resize_r : Handle) ≠ .move) ∧
    (adjust_frame_pre .resize_r 50 50 ⟨10, 10⟩ ⟨40, 40⟩ ⟨640, 360⟩).1 + 320 ≤ 640 ∧
    (adjust_frame_pre .resize_r 50 50 ⟨10, 10⟩ ⟨40, 40⟩ ⟨640, 360⟩).2.1 + 240 ≤ 360 ∧
    (adjust_frame_rect .move (some ⟨0, 0, 50, 50⟩) ⟨10, 10⟩ ⟨40, 40⟩ true
        (some (320, 240)) false none ⟨640, 360⟩).w = 320 ∧
    (adjust_frame_rect .resize_r (some ⟨0, 0, 50, 50⟩) ⟨10, 10⟩ ⟨40, 40⟩ true
        (some (320, 240)) false none ⟨640, 360⟩).w = 320 :=
  ⟨by decide, by decide, by decide,
   ((fixed_size_amended .move ⟨0, 0, 50, 50⟩ ⟨10, 10⟩ ⟨40, 40⟩ false none
      ⟨640, 360⟩).1 rfl).1,
   ((fixed_size_amended .resize_r ⟨0, 0, 50, 50⟩ ⟨10, 10⟩ ⟨40, 40⟩ false none
      ⟨640, 360⟩).2 (by decide) (by decide) (by decide)).1⟩

/-- C2 (counterexample): with FixedSize(320, 240) active on widget640,
after drawing a crop and dragging its right-edge handle (a resize update,
the state before the drag being Adjusting with the resize_r handle), the
committed rectangle is 240 wide, not 320: the constrained rectangle was
clipped at the frame's right edge. -/
theorem fixed_size_counterexample :
    (runEvs widget640_fixed (List.take 4 fixed_resize_events)).adjusting = true ∧
    (runEvs widget640_fixed (List.take 4 fixed_resize_events)).adjust_mode =
      some .resize_r ∧
    (runEvs widget640_fixed fixed_resize_events).crop_rect =
      some ⟨400, 100, 240, 240⟩ ∧
    ((240 : Int) = 320 → False) := by decide

theorem update_shadow_crops_shape (s : Widget) (n : Int) :
    ∃ l1 l2, update_shadow_crops s n =
      { s with shadow_crop_rects := l1, shadow_crop_rects_widget := l2 } := by
  unfold update_shadow_crops
  split
  · split_ifs
    · exact ⟨[], [], rfl⟩
    · exact ⟨_, _, rfl⟩
  · split_ifs
    · exact ⟨[], [], rfl⟩
    · exact ⟨s.shadow_crop_rects, s.shadow_crop_rects_widget, rfl⟩

theorem update_shadow_crops_crop_rect (s : Widget) (n : Int) :
    (update_shadow_crops s n).crop_rect = s.crop_rect := by
  obtain ⟨l1, l2, h⟩ := update_shadow_crops_shape s n
  rw [h]

theorem update_crop_rect_isSome (s : Widget) (h : s.crop_rect.isSome = true) :
    (update_crop_rect s).crop_rect.isSome = true := by
  unfold update_crop_rect
  split
  · split <;> rw [update_shadow_crops_crop_rect] <;> rfl
  · exact h


theorem lock_toggled_body_isSome (g : App → AspectSel → App)
    (hg : ∀ a, a.crop_aspect_ratio = none →
      (g a .free).preview_widget.crop_rect.isSome = a.preview_widget.crop_rect.isSome)
    (a : App) (locked : Bool) :
    (lock_toggled_body g a locked).preview_widget.crop_rect.isSome =
      a.preview_widget.crop_rect.isSome := by
  unfold lock_toggled_body
  cases locked with
  | true =>
    simp only [if_true]
    split_ifs with h
    · have hkey := update_crop_rect_isSome { a.preview_widget with lock_aspect_ratio := true, aspect_ratio := a.crop_aspect_ratio } (by exact h)
      rw [hkey]
      exact h.symm
    · rfl
  | false =>
    simp only [Bool.false_eq_true, if_false]
    have hfree := hg { a with crop_aspect_ratio := none } rfl
    split_ifs with h
    · have hkey := update_crop_rect_isSome { (g { a with crop_aspect_ratio := none } .free).preview_widget with lock_aspect_ratio := false, aspect_ratio := none } (by exact h)
      rw [hkey]
      rw [show (true : Bool) = _ from h.symm]
      exact hfree
    · exact hfree

theorem lock_toggled_body_true_crop_aspect (g : App → AspectSel → App) (a : App) :
    (lock_toggled_body g a true).crop_aspect_ratio = a.crop_aspect_ratio := by
  unfold lock_toggled_body
  dsimp only
  simp only [reduceIte]
  split_ifs <;> rfl

theorem lock_toggled_body_false_crop_aspect (g : App → AspectSel → App)
    (hg : ∀ a, a.crop_aspect_ratio = none → (g a .free).crop_aspect_ratio = none)
    (a : App) :
    (lock_toggled_body g a false).crop_aspect_ratio = none := by
  unfold lock_toggled_body
  have hfree := hg { a with crop_aspect_ratio := none } rfl
  dsimp only
  simp only [Bool.false_eq_true, reduceIte]
  split_ifs <;> exact hfree

theorem aspect_changed_body_custom_isSome (g : App → Bool → App)
    (hg : ∀ a, (g a true).preview_widget.crop_rect.isSome = a.preview_widget.crop_rect.isSome)
    (a : App) :
    (aspect_changed_body g a .custom).preview_widget.crop_rect.isSome =
      a.preview_widget.crop_rect.isSome := by
  unfold aspect_changed_body
  dsimp only
  rw [if_pos rfl]
  exact hg _

theorem aspect_changed_body_preset_isSome (g : App → Bool → App)
    (hgS : ∀ a, (g a true).preview_widget.crop_rect.isSome = a.preview_widget.crop_rect.isSome)
    (hgA : ∀ a, (g a true).crop_aspect_ratio = a.crop_aspect_ratio)
    (a : App) (sel : AspectSel) (h1 : sel ≠ .free) (h2 : sel ≠ .custom) :
    (aspect_changed_body g a sel).preview_widget.crop_rect.isSome =
      if a.crop_aspect_ratio = ratio_map sel then a.preview_widget.crop_rect.isSome
      else false := by
  cases sel
  all_goals first
  | exact absurd rfl h1
  | exact absurd rfl h2
  | (unfold aspect_changed_body
     dsimp only
     rw [hgA]
     simp only [ratio_map]
     split_ifs with h <;> first | exact hgS _ | rfl)

theorem aspect_changed_body_free_isSome (g : App → Bool → App)
    (hgS : ∀ a, a.crop_aspect_ratio = none →
      (g a false).preview_widget.crop_rect.isSome = a.preview_widget.crop_rect.isSome)
    (hgA : ∀ a, a.crop_aspect_ratio = none → (g a false).crop_aspect_ratio = none)
    (a : App) :
    (aspect_changed_body g a .free).preview_widget.crop_rect.isSome =
      if a.crop_aspect_ratio = none then a.preview_widget.crop_rect.isSome
      else false := by
  unfold aspect_changed_body
  dsimp only
  have hA := hgA { a with crop_aspect_ratio := none } rfl
  have hS := hgS { a with crop_aspect_ratio := none } rfl
  rw [hA]
  split_ifs with h
  · exact hS
  · rfl

theorem aspect_changed_body_free_car (g : App → Bool → App)
    (hgA : ∀ a, a.crop_aspect_ratio = none → (g a false).crop_aspect_ratio = none)
    (a : App) :
    (aspect_changed_body g a .free).crop_aspect_ratio = none := by
  unfold aspect_changed_body
  dsimp only
  have hA := hgA { a with crop_aspect_ratio := none } rfl
  split_ifs with h <;> exact hA

theorem uiRun_facts : ∀ n : Nat,
    (∀ a locked, (uiRun n a (.lockToggled locked)).preview_widget.crop_rect.isSome
        = a.preview_widget.crop_rect.isSome) ∧
    (∀ a : App, a.crop_aspect_ratio = none →
        (uiRun n a (.lockToggled false)).crop_aspect_ratio = none) ∧
    (∀ a, (uiRun n a (.lockToggled true)).crop_aspect_ratio = a.crop_aspect_ratio) ∧
    (∀ a : App, a.crop_aspect_ratio = none →
        (uiRun n a (.aspectChanged .free)).crop_aspect_ratio = none) ∧
    (∀ a : App, a.crop_aspect_ratio = none →
        (uiRun n a (.aspectChanged .free)).preview_widget.crop_rect.isSome
          = a.preview_widget.crop_rect.isSome) := by
  intro n
  induction n with
  | zero =>
    exact ⟨fun a _ => rfl, fun a h => h, fun a => rfl, fun a h => h, fun a _ => rfl⟩
  | succ n ih =>
    obtain ⟨P, Q, U, R, T⟩ := ih
    refine ⟨?_, ?_, ?_, ?_, ?_⟩
    · intro a locked
      simp only [uiRun]
      refine lock_toggled_body_isSome _ ?_ a locked
      intro a1 h1
      dsimp only
      split_ifs with hc
      · rfl
      · exact T { a1 with aspect_ratio_combo := AspectSel.free } h1
    · intro a _
      simp only [uiRun]
      refine lock_toggled_body_false_crop_aspect _ ?_ a
      intro a1 h1
      dsimp only
      split_ifs with hc
      · exact h1
      · exact R { a1 with aspect_ratio_combo := AspectSel.free } h1
    · intro a
      simp only [uiRun]
      exact lock_toggled_body_true_crop_aspect _ a
    · intro a h
      simp only [uiRun]
      refine aspect_changed_body_free_car _ ?_ a
      intro a1 h1
      dsimp only
      split_ifs with hc
      · exact h1
      · exact Q { a1 with lock_aspect_checkbox := false } h1
    · intro a h
      simp only [uiRun]
      refine Eq.trans (aspect_changed_body_free_isSome _ ?_ ?_ a) ?_
      · intro a1 h1
        dsimp only
        split_ifs with hc
        · rfl
        · exact P { a1 with lock_aspect_checkbox := false } false
      · intro a1 h1
        dsimp only
        split_ifs with hc
        · exact h1
        · exact Q { a1 with lock_aspect_checkbox := false } h1
      · rw [if_pos h]

/-- C4 (amended): constraint changes do not always discard the crop
rectangle.  Toggling the aspect-ratio lock never discards it (the handler
re-applies the constraint to the existing rectangle instead); selecting the
Custom entry never discards it (the handler stores the new ratio before
capturing the old one, so the comparison always sees equal ratios); a
preset selection discards it exactly when the stored ratio differs from the
preset (and the selection actually changes); selecting Free discards it
exactly when a ratio was stored; a custom spin edit discards it exactly
when the combo is on Custom and the stored ratio differs from the new spin
values. -/
theorem constraint_discard_amended (a : App) :
    (∀ b, (on_lock_aspect_toggled a b).preview_widget.crop_rect.isSome
        = a.preview_widget.crop_rect.isSome) ∧
    ((on_aspect_ratio_changed a .custom).preview_widget.crop_rect.isSome
        = a.preview_widget.crop_rect.isSome) ∧
    (∀ sel, sel ≠ .free → sel ≠ .custom →
        (on_aspect_ratio_changed a sel).preview_widget.crop_rect.isSome
          = if a.aspect_ratio_combo = sel then a.preview_widget.crop_rect.isSome
            else if a.crop_aspect_ratio = ratio_map sel then
              a.preview_widget.crop_rect.isSome
            else false) ∧
    ((on_aspect_ratio_changed a .free).preview_widget.crop_rect.isSome
        = if a.aspect_ratio_combo = .free then a.preview_widget.crop_rect.isSome
          else if a.crop_aspect_ratio = none then a.preview_widget.crop_rect.isSome
          else false) ∧
    (∀ v, (set_custom_width_spin a v).preview_widget.crop_rect.isSome
        = if a.custom_width_spin = v then a.preview_widget.crop_rect.isSome
          else if a.aspect_ratio_combo = .custom then
            (if a.crop_aspect_ratio = some (v, a.custom_height_spin) then
              a.preview_widget.crop_rect.isSome
             else false)
          else a.preview_widget.crop_rect.isSome) := by
  obtain ⟨P4, Q4, U4, R4, T4⟩ := uiRun_facts 4
  obtain ⟨P3, Q3, U3, R3, T3⟩ := uiRun_facts 3
  refine ⟨?_, ?_, ?_, ?_, ?_⟩
  · intro b
    unfold on_lock_aspect_toggled
    split_ifs with hc
    · rfl
    · exact P4 { a with lock_aspect_checkbox := b } b
  · unfold on_aspect_ratio_changed
    split_ifs with hc
    · rfl
    · simp only [show (4 : Nat) = 3 + 1 from rfl, uiRun]
      refine aspect_changed_body_custom_isSome _ ?_ { a with aspect_ratio_combo := AspectSel.custom }
      intro a1
      dsimp only
      split_ifs with hc2
      · rfl
      · exact P3 { a1 with lock_aspect_checkbox := true } true
  · intro sel h1 h2
    unfold on_aspect_ratio_changed
    by_cases hc : a.aspect_ratio_combo = sel
    · simp only [if_pos hc]
    · simp only [if_neg hc]
      simp only [show (4 : Nat) = 3 + 1 from rfl, uiRun]
      refine aspect_changed_body_preset_isSome _ ?_ ?_ { a with aspect_ratio_combo := sel } sel h1 h2
      · intro a1
        dsimp only
        split_ifs with hc2
        · rfl
        · exact P3 { a1 with lock_aspect_checkbox := true } true
      · intro a1
        dsimp only
        split_ifs with hc2
        · rfl
        · exact U3 { a1 with lock_aspect_checkbox := true }
  · unfold on_aspect_ratio_changed
    by_cases hc : a.aspect_ratio_combo = AspectSel.free
    · simp only [if_pos hc]
    · simp only [if_neg hc]
      simp only [show (4 : Nat) = 3 + 1 from rfl, uiRun]
      refine aspect_changed_body_free_isSome _ ?_ ?_ { a with aspect_ratio_combo := AspectSel.free }
      · intro a1 hn
        dsimp only
        split_ifs with hc2
        · rfl
        · exact P3 { a1 with lock_aspect_checkbox := false } false
      · intro a1 hn
        dsimp only
        split_ifs with hc2
        · exact hn
        · exact Q3 { a1 with lock_aspect_checkbox := false } hn
  · intro v
    unfold set_custom_width_spin
    by_cases hv : a.custom_width_spin = v
    · simp only [if_pos hv]
    · simp only [if_neg hv]
      unfold on_custom_ratio_changed
      dsimp only
      split_ifs with h1 h2 <;> rfl

theorem constraint_discard_amended_witness :
    (on_aspect_ratio_changed drawn_app .r16_9).preview_widget.crop_rect.isSome = false := by
  have h := (constraint_discard_amended drawn_app).2.2.1 AspectSel.r16_9
    (by decide) (by decide)
  rw [h]
  decide

/-- C4 (counterexample to the original claim): toggling the aspect-ratio
lock on, with a crop rectangle drawn, keeps a committed rectangle. -/
theorem constraint_discard_counterexample :
    (on_lock_aspect_toggled drawn_app true).preview_widget.crop_rect.isSome = true := by
  decide

theorem apply_aspect169_eq (x1 y1 x2 y2 : Int) (hh : 0 < y2 - y1) :
    apply_aspect_ratio_constraint x1 y1 x2 y2 (some (16, 9)) =
      if 16 * (y2 - y1) < (x2 - x1) * 9 then
        (x1, y1, x2, y1 + ((x2 - x1) * 9).tdiv 16)
      else
        (x1, y1, x1 + ((y2 - y1) * 16).tdiv 9, y2) := by
  unfold apply_aspect_ratio_constraint Frac.blt Frac.div Frac.mul Frac.toInt Frac.ofInt
  dsimp only
  rw [if_pos hh, if_pos (le_of_lt hh)]
  norm_num

theorem ratio_gap_bound (w h : Int) (hhp : 0 < h) (hgap : |9 * w - 16 * h| < 18) :
    |(w : ℚ) / (h : ℚ) - 16 / 9| < 2 / (h : ℚ) := by
  have hq : (0 : ℚ) < (h : ℚ) := by exact_mod_cast hhp
  have h9 : (0 : ℚ) < 9 * (h : ℚ) := by linarith
  have key : (w : ℚ) / (h : ℚ) - 16 / 9 = ((9 * w - 16 * h : ℤ) : ℚ) / (9 * (h : ℚ)) := by
    push_cast
    field_simp
    ring
  have key2 : (2 : ℚ) / (h : ℚ) = ((18 : ℤ) : ℚ) / (9 * (h : ℚ)) := by
    push_cast
    rw [div_eq_div_iff (ne_of_gt hq) (ne_of_gt h9)]
    ring
  rw [key, key2, abs_div, abs_of_pos h9, div_lt_div_iff_of_pos_right h9]
  rw [← Int.cast_abs]
  exact_mod_cast hgap

/-- C7 (amended): with the 16:9 constraint active, the constraint function
keeps the anchor corner, returns a positive width and height, and the
resulting ratio is within 2/height of 16/9 (the spec's 1/max(width,height)
tolerance is too tight: the truncation error of up to 15/16 pixel in the
adjusted height perturbs the ratio by up to 15/(9 height), which exceeds
1/width). -/
theorem aspect_ratio_tolerance_amended (x1 y1 x2 y2 : Int)
    (hwp : 1 ≤ x2 - x1) (hhp : 1 ≤ y2 - y1) :
    ∃ w h : Int,
      apply_aspect_ratio_constraint x1 y1 x2 y2 (some (16, 9)) = (x1, y1, x1 + w, y1 + h) ∧
      1 ≤ w ∧ 1 ≤ h ∧ |(w : ℚ) / (h : ℚ) - 16 / 9| < 2 / (h : ℚ) := by
  rw [apply_aspect169_eq x1 y1 x2 y2 (by omega)]
  split_ifs with hlt
  · refine ⟨x2 - x1, ((x2 - x1) * 9).tdiv 16, ?_, hwp, ?_, ?_⟩
    · have hx : x1 + (x2 - x1) = x2 := by omega
      rw [hx]
    · rw [Int.tdiv_eq_ediv (by omega) (by norm_num)]
      omega
    · rw [Int.tdiv_eq_ediv (by omega) (by norm_num)]
      refine ratio_gap_bound _ _ (by omega) ?_
      rw [abs_lt]
      constructor <;> omega
  · refine ⟨((y2 - y1) * 16).tdiv 9, y2 - y1, ?_, ?_, hhp, ?_⟩
    · have hy : y1 + (y2 - y1) = y2 := by omega
      rw [hy]
    · rw [Int.tdiv_eq_ediv (by omega) (by norm_num)]
      omega
    · rw [Int.tdiv_eq_ediv (by omega) (by norm_num)]
      refine ratio_gap_bound _ _ (by omega) ?_
      rw [abs_lt]
      constructor <;> omega

theorem aspect_ratio_tolerance_amended_witness :
    (1 : Int) ≤ 267 - 100 ∧ (1 : Int) ≤ 190 - 100 ∧
    (∃ w h : Int,
      apply_aspect_ratio_constraint 100 100 267 190 (some (16, 9)) = (100, 100, 100 + w, 100 + h) ∧
      1 ≤ w ∧ 1 ≤ h ∧ |(w : ℚ) / (h : ℚ) - 16 / 9| < 2 / (h : ℚ)) :=
  ⟨by decide, by decide, aspect_ratio_tolerance_amended 100 100 267 190 (by decide) (by decide)⟩

/-- C7 (counterexample to the original tolerance): dragging the right edge
of a 16:9-locked crop leaves the committed rectangle at 167 x 93, and
167/93 misses 16/9 by 15/837, which is not below 1/max(167, 93) = 1/167. -/
theorem aspect_ratio_tolerance_counterexample :
    (runEvs widget640_aspect169 aspect_resize_events).crop_rect = some ⟨100, 100, 167, 93⟩ ∧
    ¬ (|(167 : ℚ) / 93 - 16 / 9| < 1 / (max 167 93 : ℚ)) := by
  constructor
  · decide
  · rw [abs_of_nonneg (by norm_num), max_eq_left (by norm_num)]
    norm_num

theorem Frac.toRat_ofInt (a : Int) : (Frac.ofInt a).toRat = (a : ℚ) := by
  unfold Frac.ofInt Frac.toRat
  norm_num

theorem Frac.toRat_mul (a b : Frac) : (a.mul b).toRat = a.toRat * b.toRat := by
  unfold Frac.mul Frac.toRat
  push_cast
  rw [div_mul_div_comm]

theorem Frac.toRat_add (a b : Frac) (ha : a.d ≠ 0) (hb : b.d ≠ 0) :
    (a.add b).toRat = a.toRat + b.toRat := by
  unfold Frac.add Frac.toRat
  have ha' : (a.d : ℚ) ≠ 0 := Int.cast_ne_zero.mpr ha
  have hb' : (b.d : ℚ) ≠ 0 := Int.cast_ne_zero.mpr hb
  push_cast
  field_simp
  try ring

theorem Frac.toRat_sub (a b : Frac) (ha : a.d ≠ 0) (hb : b.d ≠ 0) :
    (a.sub b).toRat = a.toRat - b.toRat := by
  unfold Frac.sub Frac.toRat
  have ha' : (a.d : ℚ) ≠ 0 := Int.cast_ne_zero.mpr ha
  have hb' : (b.d : ℚ) ≠ 0 := Int.cast_ne_zero.mpr hb
  push_cast
  field_simp
  try ring

theorem Frac.toRat_div (a b : Frac) (hb : 0 ≤ b.n) :
    (a.div b).toRat = a.toRat / b.toRat := by
  unfold Frac.div Frac.toRat
  rw [if_pos hb]
  push_cast
  try rw [div_div_eq_mul_div, div_mul_eq_mul_div, div_div]

theorem Frac.toInt_eq (a : Frac) (h : 0 < a.d) : a.toInt = ratTrunc a.toRat := by
  unfold Frac.toInt Frac.toRat ratTrunc
  have hd0 : (0 : ℚ) < (a.d : ℚ) := by exact_mod_cast h
  have hdc : (a.d : ℚ) = ((a.d.toNat : ℕ) : ℚ) := by
    rw [← Int.cast_natCast, Int.toNat_of_nonneg (le_of_lt h)]
  rcases le_or_lt 0 a.n with hn | hn
  · rw [if_pos (div_nonneg (by exact_mod_cast hn) (le_of_lt hd0))]
    rw [hdc, Rat.floor_intCast_div_natCast, Int.toNat_of_nonneg (le_of_lt h)]
    exact Int.tdiv_eq_ediv hn (le_of_lt h)
  · rw [if_neg (not_le.mpr (div_neg_of_neg_of_pos (by exact_mod_cast hn) hd0))]
    have h1 : a.n.tdiv a.d = -((-a.n).tdiv a.d) := by
      rw [Int.neg_tdiv, neg_neg]
    have h2 : ⌈(a.n : ℚ) / (a.d : ℚ)⌉ = -⌊-((a.n : ℚ) / (a.d : ℚ))⌋ := by
      rw [Int.floor_neg, neg_neg]
    rw [h1, h2, Int.tdiv_eq_ediv (by omega) (le_of_lt h), ← neg_div]
    have h3 : (-(a.n : ℚ)) = ((-a.n : ℤ) : ℚ) := by push_cast; ring
    rw [h3, hdc, Rat.floor_intCast_div_natCast, Int.toNat_of_nonneg (le_of_lt h)]

theorem trunc_axis_bound (s c : ℚ) (v fw : Int)
    (hs : 1 ≤ s) (hc : 0 ≤ c) (hv : 0 < v) (hvf : v < fw) :
    v - 1 ≤ max 0 (min (ratTrunc ((((ratTrunc ((v : ℚ) * s + c) : Int) : ℚ) - c) / s)) fw) ∧
    max 0 (min (ratTrunc ((((ratTrunc ((v : ℚ) * s + c) : Int) : ℚ) - c) / s)) fw) ≤ v := by
  have hs0 : (0 : ℚ) < s := by linarith
  have hv1 : (1 : ℚ) ≤ (v : ℚ) := by exact_mod_cast hv
  have hfwd0 : (0 : ℚ) ≤ (v : ℚ) * s + c := by nlinarith
  have hW : ratTrunc ((v : ℚ) * s + c) = ⌊(v : ℚ) * s + c⌋ := by
    unfold ratTrunc
    rw [if_pos hfwd0]
  rw [hW]
  have hWl : ((⌊(v : ℚ) * s + c⌋ : ℤ) : ℚ) ≤ (v : ℚ) * s + c := Int.floor_le _
  have hWu : (v : ℚ) * s + c < ((⌊(v : ℚ) * s + c⌋ : ℤ) : ℚ) + 1 := Int.lt_floor_add_one _
  have hnum : (0 : ℚ) ≤ ((⌊(v : ℚ) * s + c⌋ : ℤ) : ℚ) - c := by nlinarith
  have hB : ratTrunc ((((⌊(v : ℚ) * s + c⌋ : ℤ) : ℚ) - c) / s) =
      ⌊(((⌊(v : ℚ) * s + c⌋ : ℤ) : ℚ) - c) / s⌋ := by
    unfold ratTrunc
    rw [if_pos (div_nonneg hnum (le_of_lt hs0))]
  rw [hB]
  have hup : ⌊(((⌊(v : ℚ) * s + c⌋ : ℤ) : ℚ) - c) / s⌋ ≤ v := by
    have hle : (((⌊(v : ℚ) * s + c⌋ : ℤ) : ℚ) - c) / s ≤ ((v : ℤ) : ℚ) := by
      rw [div_le_iff₀ hs0]
      nlinarith
    calc ⌊(((⌊(v : ℚ) * s + c⌋ : ℤ) : ℚ) - c) / s⌋ ≤ ⌊((v : ℤ) : ℚ)⌋ :=
          Int.floor_le_floor hle
    _ = v := Int.floor_intCast v
  have hlo : v - 1 ≤ ⌊(((⌊(v : ℚ) * s + c⌋ : ℤ) : ℚ) - c) / s⌋ := by
    rw [Int.le_floor, le_div_iff₀ hs0]
    push_cast
    nlinarith
  omega

theorem frac_axis_bound (v fw pw ww : Int)
    (h1 : 1 ≤ fw) (h3 : fw ≤ pw) (h5 : pw ≤ ww) (hv : 0 < v) (hvf : v < fw) :
    v - 1 ≤ max 0 (min ((((Frac.ofInt ((((Frac.ofInt v).mul ((Frac.ofInt pw).div (Frac.ofInt fw))).add ((Frac.ofInt (ww - pw)).div (Frac.ofInt 2))).toInt)).sub ((Frac.ofInt (ww - pw)).div (Frac.ofInt 2))).div ((Frac.ofInt pw).div (Frac.ofInt fw))).toInt) fw) ∧
    max 0 (min ((((Frac.ofInt ((((Frac.ofInt v).mul ((Frac.ofInt pw).div (Frac.ofInt fw))).add ((Frac.ofInt (ww - pw)).div (Frac.ofInt 2))).toInt)).sub ((Frac.ofInt (ww - pw)).div (Frac.ofInt 2))).div ((Frac.ofInt pw).div (Frac.ofInt fw))).toInt) fw) ≤ v := by
  set sc := (Frac.ofInt pw).div (Frac.ofInt fw) with hsc
  set off := (Frac.ofInt (ww - pw)).div (Frac.ofInt 2) with hoff
  have hsceq : sc = ⟨pw * 1, 1 * fw⟩ := by
    rw [hsc]
    unfold Frac.div Frac.ofInt
    dsimp only
    rw [if_pos (show (0 : Int) ≤ fw by omega)]
  have hoffeq : off = ⟨(ww - pw) * 1, 1 * 2⟩ := by
    rw [hoff]
    unfold Frac.div Frac.ofInt
    dsimp only
    rw [if_pos (show (0 : Int) ≤ 2 by omega)]
  have hscr : sc.toRat = (pw : ℚ) / (fw : ℚ) := by
    rw [hsc, Frac.toRat_div _ _ (show (0 : Int) ≤ fw by omega),
        Frac.toRat_ofInt, Frac.toRat_ofInt]
  have hoffr : off.toRat = ((ww - pw : Int) : ℚ) / 2 := by
    rw [hoff, Frac.toRat_div _ _ (show (0 : Int) ≤ 2 by omega),
        Frac.toRat_ofInt, Frac.toRat_ofInt]
    norm_num
  have hWd : (0 : Int) < (((Frac.ofInt v).mul sc).add off).d := by
    rw [hsceq, hoffeq]
    unfold Frac.mul Frac.add Frac.ofInt
    dsimp only
    nlinarith
  have hWr : (((Frac.ofInt v).mul sc).add off).toRat = (v : ℚ) * sc.toRat + off.toRat := by
    rw [Frac.toRat_add _ _ ?_ ?_, Frac.toRat_mul, Frac.toRat_ofInt]
    · show (Frac.ofInt v).d * sc.d ≠ 0
      rw [hsceq]
      unfold Frac.ofInt
      dsimp only
      nlinarith
    · rw [hoffeq]
      dsimp only
      omega
  have hWi : (((Frac.ofInt v).mul sc).add off).toInt =
      ratTrunc ((v : ℚ) * ((pw : ℚ) / (fw : ℚ)) + ((ww - pw : Int) : ℚ) / 2) := by
    rw [Frac.toInt_eq _ hWd, hWr, hscr, hoffr]
  rw [hWi]
  set W := ratTrunc ((v : ℚ) * ((pw : ℚ) / (fw : ℚ)) + ((ww - pw : Int) : ℚ) / 2) with hWdef
  have hBd : (0 : Int) < (((Frac.ofInt W).sub off).div sc).d := by
    rw [hsceq, hoffeq]
    unfold Frac.div Frac.sub Frac.ofInt
    dsimp only
    rw [if_pos (show (0 : Int) ≤ pw * 1 by omega)]
    dsimp only
    nlinarith
  have hBr : (((Frac.ofInt W).sub off).div sc).toRat =
      (((W : Int) : ℚ) - ((ww - pw : Int) : ℚ) / 2) / ((pw : ℚ) / (fw : ℚ)) := by
    rw [Frac.toRat_div _ _ ?_, Frac.toRat_sub _ _ ?_ ?_, Frac.toRat_ofInt, hscr, hoffr]
    · unfold Frac.ofInt
      dsimp only
      omega
    · rw [hoffeq]
      dsimp only
      omega
    · rw [hsceq]
      dsimp only
      omega
  have hBi : (((Frac.ofInt W).sub off).div sc).toInt =
      ratTrunc ((((W : Int) : ℚ) - ((ww - pw : Int) : ℚ) / 2) / ((pw : ℚ) / (fw : ℚ))) := by
    rw [Frac.toInt_eq _ hBd, hBr]
  rw [hBi]
  have hmain := trunc_axis_bound ((pw : ℚ) / (fw : ℚ)) (((ww - pw : Int) : ℚ) / 2) v fw
    ?_ ?_ hv hvf
  · exact hmain
  · rw [le_div_iff₀ (show (0 : ℚ) < (fw : ℚ) by exact_mod_cast h1)]
    rw [one_mul]
    exact_mod_cast h3
  · apply div_nonneg ?_ (by norm_num)
    have : (0 : Int) ≤ ww - pw := by omega
    exact_mod_cast this

/-- C6 (amended): when the letterbox fit does not shrink the content (the
pixmap is at least as large as the frame on each axis, as for zoomed or
1:1 display), the round trip through display space of a content point
strictly inside the frame moves it by at most one unit per axis.  Without
that restriction the claim fails: at a downscale the int() truncation of
the forward map loses up to one display pixel, which is 1/scale > 1
content units. -/
theorem coord_roundtrip_amended (fw fh ww wh pw ph : Int) (p : Pt)
    (h1 : 1 ≤ fw) (h2 : 1 ≤ fh) (h3 : fw ≤ pw) (h4 : fh ≤ ph)
    (h5 : pw ≤ ww) (h6 : ph ≤ wh)
    (hx1 : 0 < p.x) (hx2 : p.x < fw) (hy1 : 0 < p.y) (hy2 : p.y < fh) :
    ∃ q : Pt,
      widget_to_frame_coords (load_frame_state fw fh ww wh pw ph)
        (frame_to_widget_coords (load_frame_state fw fh ww wh pw ph) p) = some q ∧
      |q.x - p.x| ≤ 1 ∧ |q.y - p.y| ≤ 1 := by
  have hx := frac_axis_bound p.x fw pw ww h1 h3 h5 hx1 hx2
  have hy := frac_axis_bound p.y fh ph wh h2 h4 h6 hy1 hy2
  refine ⟨⟨max 0 (min ((((Frac.ofInt ((((Frac.ofInt p.x).mul ((Frac.ofInt pw).div (Frac.ofInt fw))).add ((Frac.ofInt (ww - pw)).div (Frac.ofInt 2))).toInt)).sub ((Frac.ofInt (ww - pw)).div (Frac.ofInt 2))).div ((Frac.ofInt pw).div (Frac.ofInt fw))).toInt) fw),
            max 0 (min ((((Frac.ofInt ((((Frac.ofInt p.y).mul ((Frac.ofInt ph).div (Frac.ofInt fh))).add ((Frac.ofInt (wh - ph)).div (Frac.ofInt 2))).toInt)).sub ((Frac.ofInt (wh - ph)).div (Frac.ofInt 2))).div ((Frac.ofInt ph).div (Frac.ofInt fh))).toInt) fh)⟩,
          rfl, ?_, ?_⟩
  · dsimp only
    rw [abs_le]
    omega
  · dsimp only
    rw [abs_le]
    omega

theorem coord_roundtrip_amended_witness :
    ∃ q : Pt,
      widget_to_frame_coords (load_frame_state 640 360 800 400 640 360)
        (frame_to_widget_coords (load_frame_state 640 360 800 400 640 360) ⟨100, 100⟩) = some q ∧
      |q.x - (100 : Int)| ≤ 1 ∧ |q.y - (100 : Int)| ≤ 1 :=
  coord_roundtrip_amended 640 360 800 400 640 360 ⟨100, 100⟩ (by decide) (by decide)
    (by decide) (by decide) (by decide) (by decide) (by decide) (by decide)
    (by decide) (by decide)

/-- C6 (counterexample to the original claim): at the tenfold downscale of
widget_downscaled the point (109, 109), strictly inside the 6400 x 3600
frame, round-trips to (100, 100), nine units away. -/
theorem coord_roundtrip_counterexample :
    (0 : Int) < 109 ∧ (109 : Int) < 6400 ∧ (109 : Int) < 3600 ∧
    widget_to_frame_coords widget_downscaled
        (frame_to_widget_coords widget_downscaled ⟨109, 109⟩) = some ⟨100, 100⟩ ∧
    ¬ (|(100 : Int) - 109| ≤ 1) := by
  decide

theorem update_frame_rect_inv (sp ep : Pt) (lockedS ar : Option (Int × Int)) (f : Frame)
    (hfw : 1 ≤ f.width) (hfh : 1 ≤ f.height) :
    InvRect f (update_frame_rect sp ep false lockedS false ar f) := by
  unfold update_frame_rect InvRect
  simp only [Bool.false_eq_true, false_and, if_false]
  split_ifs <;> try dsimp only
  all_goals omega

theorem move_repair_ok (extent pos size : Int) (hext : 1 ≤ extent) :
    AxisOK extent
      (repair_axis extent (move_axis extent pos size).1 (move_axis extent pos size).2).1
      (repair_axis extent (move_axis extent pos size).1 (move_axis extent pos size).2).2 := by
  unfold move_axis repair_axis AxisOK
  dsimp only
  split_ifs <;> dsimp only <;> omega

theorem resize_repair_ok (extent p1 p2 : Int) (hext : 1 ≤ extent) :
    AxisOK extent
      (repair_axis extent (resize_axis extent p1 p2).1 (resize_axis extent p1 p2).2).1
      (repair_axis extent (resize_axis extent p1 p2).1 (resize_axis extent p1 p2).2).2 := by
  unfold resize_axis repair_axis AxisOK
  dsimp only
  split_ifs <;> dsimp only <;> omega

theorem adjust_frame_pre_ok (mode : Handle) (ow oh : Int) (tl br : Pt) (f : Frame)
    (hfw : 1 ≤ f.width) (hfh : 1 ≤ f.height) :
    AxisOK f.width (adjust_frame_pre mode ow oh tl br f).1
      (adjust_frame_pre mode ow oh tl br f).2.2.1 ∧
    AxisOK f.height (adjust_frame_pre mode ow oh tl br f).2.1
      (adjust_frame_pre mode ow oh tl br f).2.2.2 := by
  unfold adjust_frame_pre
  dsimp only
  split_ifs with hm
  · exact ⟨move_repair_ok f.width tl.x ow hfw, move_repair_ok f.height tl.y oh hfh⟩
  · exact ⟨resize_repair_ok f.width tl.x br.x hfw, resize_repair_ok f.height tl.y br.y hfh⟩

theorem adjust_frame_post_ok (mode : Handle) (lockedS ar : Option (Int × Int)) (f : Frame)
    (q : Int × Int × Int × Int) (hfw : 1 ≤ f.width) (hfh : 1 ≤ f.height)
    (hx : AxisOK f.width q.1 q.2.2.1) (hy : AxisOK f.height q.2.1 q.2.2.2) :
    InvRect f (adjust_frame_post mode false lockedS false ar f q) := by
  unfold AxisOK at hx hy
  unfold adjust_frame_post InvRect
  simp only [Bool.false_eq_true, false_and, false_or, and_false, if_false]
  omega

theorem adjust_frame_rect_inv (mode : Handle) (orig : Option Rect) (tl br : Pt)
    (lockedS ar : Option (Int × Int)) (f : Frame)
    (hfw : 1 ≤ f.width) (hfh : 1 ≤ f.height) :
    InvRect f (adjust_frame_rect mode orig tl br false lockedS false ar f) := by
  unfold adjust_frame_rect
  dsimp only
  exact adjust_frame_post_ok mode lockedS ar f _ hfw hfh
    (adjust_frame_pre_ok mode _ _ tl br f hfw hfh).1
    (adjust_frame_pre_ok mode _ _ tl br f hfw hfh).2

theorem goodState_update_shadow (f : Frame) (s : Widget) (n : Int)
    (h : GoodState f s) : GoodState f (update_shadow_crops s n) := by
  obtain ⟨l1, l2, hs⟩ := update_shadow_crops_shape s n
  rw [hs]
  exact h

theorem goodState_update_crop_rect (f : Frame) (s : Widget)
    (h : GoodState f s) : GoodState f (update_crop_rect s) := by
  obtain ⟨hfw, hfh, hcf, hls, hla, hcr, hocr⟩ := h
  unfold update_crop_rect
  split
  · next sp ep f2 hsp hep hcf2 =>
    rw [hcf] at hcf2
    injection hcf2 with hf2
    subst hf2
    apply goodState_update_shadow
    split
    · next spw epw hspw hepw =>
      refine ⟨hfw, hfh, hcf, hls, hla, ?_, hocr⟩
      intro r hr
      injection hr with hr
      subst hr
      rw [hls, hla]
      exact update_frame_rect_inv sp ep s.locked_size s.aspect_ratio f hfw hfh
    · next hno =>
      refine ⟨hfw, hfh, hcf, hls, hla, ?_, hocr⟩
      intro r hr
      injection hr with hr
      subst hr
      rw [hls, hla]
      exact update_frame_rect_inv sp ep s.locked_size s.aspect_ratio f hfw hfh
  · next hno =>
    exact ⟨hfw, hfh, hcf, hls, hla, hcr, hocr⟩

theorem goodState_press (f : Frame) (s : Widget) (p : Pt)
    (h : GoodState f s) : GoodState f (mousePressEvent s p) := by
  obtain ⟨hfw, hfh, hcf, hls, hla, hcr, hocr⟩ := h
  unfold mousePressEvent
  rw [hcf]
  dsimp only
  split
  · next hdl heq =>
    exact ⟨hfw, hfh, rfl, hls, hla, hcr, hcr⟩
  · next heq =>
    split
    · next fp hfp =>
      exact goodState_update_crop_rect f _ ⟨hfw, hfh, rfl, hls, hla, hcr, hocr⟩
    · next hfp =>
      exact ⟨hfw, hfh, rfl, hls, hla, hcr, hocr⟩

theorem goodState_adjust (f : Frame) (s : Widget) (p : Pt)
    (h : GoodState f s) : GoodState f (adjust_crop_rect s p) := by
  obtain ⟨hfw, hfh, hcf, hls, hla, hcr, hocr⟩ := h
  unfold adjust_crop_rect
  split
  · next orig f2 spw mode h1 h2 h3 h4 =>
    rw [hcf] at h2
    injection h2 with h2
    subst h2
    dsimp only
    split
    · next tlf brf htl hbr =>
      apply goodState_update_shadow
      refine ⟨hfw, hfh, hcf, hls, hla, ?_, hocr⟩
      intro r hr
      injection hr with hr
      subst hr
      rw [hls, hla]
      exact adjust_frame_rect_inv mode s.original_crop_rect tlf brf
        s.locked_size s.aspect_ratio f hfw hfh
    · next htl hbr =>
      exact ⟨hfw, hfh, hcf, hls, hla, hcr, hocr⟩
  · next hno =>
    exact ⟨hfw, hfh, hcf, hls, hla, hcr, hocr⟩

theorem goodState_move (f : Frame) (s : Widget) (p : Pt)
    (h : GoodState f s) : GoodState f (mouseMoveEvent s p) := by
  obtain ⟨hfw, hfh, hcf, hls, hla, hcr, hocr⟩ := h
  unfold mouseMoveEvent
  split_ifs with hA hD
  · exact goodState_adjust f s p ⟨hfw, hfh, hcf, hls, hla, hcr, hocr⟩
  · dsimp only
    split
    · next fp hfp =>
      exact goodState_update_crop_rect f _ ⟨hfw, hfh, hcf, hls, hla, hcr, hocr⟩
    · next hfp =>
      exact ⟨hfw, hfh, hcf, hls, hla, hcr, hocr⟩
  · exact ⟨hfw, hfh, hcf, hls, hla, hcr, hocr⟩

theorem goodState_release (f : Frame) (s : Widget)
    (h : GoodState f s) : GoodState f (mouseReleaseEvent s) := by
  obtain ⟨hfw, hfh, hcf, hls, hla, hcr, hocr⟩ := h
  unfold mouseReleaseEvent
  split_ifs with hA
  · exact ⟨hfw, hfh, hcf, hls, hla, hcr, fun r hr => nomatch hr⟩
  · dsimp only
    split_ifs with hSE
    · exact goodState_update_crop_rect f _ ⟨hfw, hfh, hcf, hls, hla, hcr, hocr⟩
    · exact ⟨hfw, hfh, hcf, hls, hla, hcr, hocr⟩

theorem goodState_resize (f : Frame) (s : Widget) (ww wh pw ph : Int)
    (h : GoodState f s) : GoodState f (resizeEvent s ww wh pw ph) := by
  obtain ⟨hfw, hfh, hcf, hls, hla, hcr, hocr⟩ := h
  unfold resizeEvent
  dsimp only
  rw [hcf]
  dsimp only
  unfold update_base_pixmap
  dsimp only
  split
  · next crop hcrop =>
    apply goodState_update_shadow
    exact ⟨hfw, hfh, rfl, hls, hla, hcr, hocr⟩
  · next hcrop =>
    exact ⟨hfw, hfh, rfl, hls, hla, hcr, hocr⟩

theorem goodState_step (f : Frame) (s : Widget) (e : Ev)
    (h : GoodState f s) : GoodState f (stepEv s e) := by
  cases e with
  | press p => exact goodState_press f s p h
  | move p => exact goodState_move f s p h
  | release => exact goodState_release f s h
  | resize ww wh pw ph => exact goodState_resize f s ww wh pw ph h

theorem goodState_runEvs (f : Frame) (s : Widget) (evs : List Ev)
    (h : GoodState f s) : GoodState f (runEvs s evs) := by
  induction evs generalizing s with
  | nil => exact h
  | cons e t ih =>
    exact ih (stepEv s e) (goodState_step f s e h)

/-- C1 (amended): with a nonempty frame loaded and no size or aspect
constraint active, every sequence of press/drag/release/resize events keeps
the committed content-space crop rectangle inside the frame with positive
dimensions.  The constraint-free restriction is necessary: with an active
constraint the adjust handler re-applies the target size or ratio after
clamping and can push the rectangle past the frame (see the
counterexample). -/
theorem crop_bounds_amended (f : Frame) (s : Widget) (h : GoodState f s)
    (evs : List Ev) (r : Rect) (hr : (runEvs s evs).crop_rect = some r) :
    InvRect f r :=
  (goodState_runEvs f s evs h).2.2.2.2.2.1 r hr

theorem crop_bounds_amended_witness :
    (runEvs widget640 draw_then_adjust_events).crop_rect = some ⟨130, 100, 100, 50⟩ ∧
    InvRect ⟨640, 360⟩ ⟨130, 100, 100, 50⟩ := by
  have hg : GoodState ⟨640, 360⟩ widget640 := by
    refine ⟨by decide, by decide, rfl, rfl, rfl, ?_, ?_⟩ <;>
      exact fun r hr => absurd (show (none : Option Rect) = some r from hr) (by simp)
  exact ⟨by decide,
    crop_bounds_amended ⟨640, 360⟩ widget640 hg draw_then_adjust_events
      ⟨130, 100, 100, 50⟩ (by decide)⟩

/-- C1 (counterexample to the unrestricted claim): with the 2:1 aspect lock
active a move-adjust re-inflates the clamped rectangle to width 680 on the
640-wide frame, and with the (dead-code) 320 x 240 fixed-size lock active a
move-adjust commits a 320-wide rectangle on a 200-wide frame. -/
theorem crop_bounds_counterexample :
    (runEvs widget640_aspect21 aspect_move_events).crop_rect = some ⟨0, 0, 680, 340⟩ ∧
    ¬ ((0 : Int) + 680 ≤ 640) ∧
    (runEvs widget200_fixed fixed_move_events).crop_rect = some ⟨0, 0, 320, 240⟩ ∧
    ¬ ((0 : Int) + 320 ≤ 200) := by
  refine ⟨by decide, by decide, by decide, by decide⟩

end VideoooCut
